import Mathlib

/-!
Verification development for the Nepali-news content extractor
(`src/content_extractor.py`).  The Python module is shallowly embedded:
pure string manipulation is translated to Lean functions on `String` /
`List Char`; BeautifulSoup queries, the HTTP download, the Playwright
renderer and the publish-time parser (which calls `datetime.now`) are
modelled as oracle inputs (structure fields / function-typed environment
fields), while every piece of control flow and string logic of the
repository itself is translated faithfully.
-/

namespace ContentExtractor

/-! ## Python string primitives -/
/-- Characters stripped by Python's `str.strip()` / matched by `\s`
(the whitespace set of `str.isspace`). -/
def isPyWs (c : Char) : Bool :=
  let n := c.toNat
  n == 0x20 || n == 0x9 || n == 0xa || n == 0xb || n == 0xc || n == 0xd ||
  n == 0x1c || n == 0x1d || n == 0x1e || n == 0x1f || n == 0x85 || n == 0xa0 ||
  n == 0x1680 || (decide (0x2000 ≤ n) && decide (n ≤ 0x200a)) ||
  n == 0x2028 || n == 0x2029 || n == 0x202f || n == 0x205f || n == 0x3000

/-- Drop trailing characters satisfying `p`. -/
def dropTrailing (p : Char → Bool) (l : List Char) : List Char :=
  (l.reverse.dropWhile p).reverse

/-- Python `s.strip()`. -/
def pyStrip (s : String) : String :=
  String.mk (dropTrailing isPyWs (s.data.dropWhile isPyWs))

/-- Python `s.strip('/')` (used on URL paths). -/
def pyStripSlash (s : String) : String :=
  String.mk (dropTrailing (fun c => c == '/') (s.data.dropWhile (fun c => c == '/')))

/-- Python `s.lower()`, restricted to ASCII case folding (all pattern
tables in the source are ASCII or Devanagari, and Devanagari has no case). -/
def pyLower (s : String) : String := String.mk (s.data.map Char.toLower)

/-- Python `s[:n]` for a non-negative bound. -/
def pySliceTo (s : String) (n : Nat) : String := String.mk (s.data.take n)

/-- Python `sep.join(parts)`. -/
def joinWith (sep : String) : List String → String
  | [] => ""
  | [x] => x
  | x :: xs => x ++ sep ++ joinWith sep xs

/-- Python `' '.join(parts)`. -/
def joinSpace (parts : List String) : String := joinWith " " parts

/-- `needle` is a leading segment of `hay` (Python `startswith`). -/
def leadsWith : List Char → List Char → Bool
  | [], _ => true
  | _ :: _, [] => false
  | a :: as, b :: bs => a == b && leadsWith as bs

/-- `needle` is a trailing segment of `hay` (Python `endswith`). -/
def trailsWith (needle hay : List Char) : Bool :=
  leadsWith needle.reverse hay.reverse

/-- `needle` occurs contiguously somewhere in `hay` (Python `in`). -/
def occursInList (needle : List Char) : List Char → Bool
  | [] => leadsWith needle []
  | c :: rest => leadsWith needle (c :: rest) || occursInList needle rest

/-- Python `needle in hay` on strings. -/
def occursStr (needle hay : String) : Bool := occursInList needle.data hay.data

/-- Python `s.count(ch)` for a single character. -/
def countChar (ch : Char) (s : String) : Nat :=
  (s.data.filter (fun c => c == ch)).length

/-! ## The whitespace normalizer (`re.sub(r'\s+', ' ', text)`) -/
/-- Worker for the whitespace collapse: `inRun` records whether the
previous character belonged to a whitespace run already replaced by a
single `' '`. -/
def wsCollapse : List Char → Bool → List Char
  | [], _ => []
  | c :: rest, inRun =>
    if isPyWs c then
      if inRun then wsCollapse rest true else ' ' :: wsCollapse rest true
    else c :: wsCollapse rest false

/-- The whitespace normalizer of `clean_article_content`
(`re.sub(r'\s+', ' ', cleaned_text)`): every maximal run of whitespace
becomes a single space. -/
def collapseWhitespace (s : String) : String := String.mk (wsCollapse s.data false)

/-! ## URL parsing (model of `urllib.parse.urlparse` for http(s) URLs) -/
/-- Split `l` at the first occurrence of `pat`, returning the part before
and the part after the occurrence. -/
def breakAtSub (pat : List Char) : List Char → Option (List Char × List Char)
  | [] => if leadsWith pat [] then some ([], []) else none
  | c :: rest =>
    if leadsWith pat (c :: rest) then some ([], (c :: rest).drop pat.length)
    else
      match breakAtSub pat rest with
      | some (pre, post) => some (c :: pre, post)
      | none => none

/-- The netloc (host) component of a URL: the text between `"://"` and the
first `/`, `?` or `#`; empty when the URL has no `"://"`. -/
def urlHost (url : String) : String :=
  match breakAtSub "://".data url.data with
  | some (_, post) => String.mk (post.takeWhile (fun c => !(c == '/' || c == '?' || c == '#')))
  | none => ""

/-- The path component of a URL (text from the first `/` after the host up
to `?` or `#`); for a URL without `"://"` the whole text up to `?`/`#` is
the path, matching `urlparse` on scheme-less inputs. -/
def urlPath (url : String) : String :=
  match breakAtSub "://".data url.data with
  | some (_, post) =>
    String.mk ((post.dropWhile (fun c => !(c == '/' || c == '?' || c == '#'))).takeWhile
      (fun c => !(c == '?' || c == '#')))
  | none => String.mk (url.data.takeWhile (fun c => !(c == '?' || c == '#')))

/-! ## Configuration tables of the source module -/
def DEFAULT_MAX_BODY_LENGTH : Nat := 5000

/-- `ARTICLE_SELECTORS` of the source, in order of preference. -/
def ARTICLE_SELECTORS : List String :=
  [".news-detail-content", ".article-detail", ".news-content", ".news-body",
   ".detail-content", ".story-content", ".post-detail",
   "#ctl00_ContentPlaceHolder1_NewsDetailPanel", ".news-detail",
   "#ContentPlaceHolder1_NewsDetailPanel", "[id*=\"NewsDetail\"]",
   "article", "main article", "[role=\"main\"] article",
   ".post-content", ".entry-content", ".article-content", ".content-area",
   ".post-body", ".article-body",
   "div[class*=\"content\"]", "div[class*=\"post\"]", "div[class*=\"article\"]",
   "div[class*=\"body\"]", "div[class*=\"text\"]",
   "#content", "#main-content", "#article-content",
   "main", ".main", "#main"]

def TITLE_SELECTORS : List String :=
  ["h1.entry-title", "h1.post-title", "h1.article-title", ".title h1",
   "article h1", "h1", "title"]

def AUTHOR_SELECTORS : List String :=
  [".author", ".byline", ".post-author", ".article-author", ".author-name",
   "[rel=\"author\"]", ".writer", ".journalist"]

def DATE_SELECTORS : List String :=
  ["time[datetime]", ".published", ".post-date", ".article-date", ".date",
   ".timestamp", "meta[property=\"article:published_time\"]",
   "meta[name=\"publish-date\"]"]

/-- `JS_HEAVY_DOMAINS` of the source: domains routed straight to browser
rendering. -/
def JS_HEAVY_DOMAINS : List String :=
  ["nepalipaisa.com", "onlinekhabar.com", "ekantipur.com", "merolagani.com",
   "bikashnews.com"]

/-- `NAV_PATTERNS` of the source: navigation content to exclude. -/
def NAV_PATTERNS : List String :=
  ["Home News Latest News Stock Market",
   "Popular News Interviews Market Analysis",
   "Investment Opportunities IPO FPO",
   "Contact Us Feedback FAQ",
   "Training Calculator",
   "Share Manager Portfolio"]

/-- `CLEANUP_PATTERNS` of the source: boilerplate removed from the start
and end of the final text. -/
def CLEANUP_PATTERNS : List String :=
  ["Nepali Paisa In this article:", "Top Stories", "Related News",
   "Share this article", "Follow us on", "Subscribe to", "Advertisement"]

/-! ## Text classification helpers -/
/-- A character of the Devanagari Unicode block U+0900–U+097F. -/
def isDevanagari (c : Char) : Bool :=
  decide (0x0900 ≤ c.toNat) && decide (c.toNat ≤ 0x097F)

/-- `any('ऀ' <= char <= 'ॿ' for char in text)`. -/
def containsDevanagari (s : String) : Bool := s.data.any isDevanagari

/-- Number of Devanagari characters in the text. -/
def nepaliCharCount (s : String) : Nat := (s.data.filter isDevanagari).length

/-- `is_navigation_content` of the source: case-insensitive substring
match against the fixed navigation phrase table. -/
def is_navigation_content (text : String) : Bool :=
  NAV_PATTERNS.any (fun pattern => occursStr (pyLower pattern) (pyLower text))

/-- `has_substantial_nepali_content` of the source: at least 20 characters
and strictly more than 5 Devanagari characters. -/
def has_substantial_nepali_content (text : String) : Bool :=
  if text.length < 20 then false else decide (nepaliCharCount text > 5)

/-! ## `clean_article_content` -/
/-- One iteration of the `CLEANUP_PATTERNS` loop of
`clean_article_content`: strip the pattern (case-insensitively) from the
beginning, then from the end, re-stripping whitespace after each removal. -/
def stripPatternEnds (cleaned : String) (pattern : String) : String :=
  let c1 :=
    if leadsWith (pyLower pattern).data (pyLower cleaned).data then
      pyStrip (String.mk (cleaned.data.drop pattern.length))
    else cleaned
  if trailsWith (pyLower pattern).data (pyLower c1).data then
    pyStrip (String.mk (c1.data.take (c1.length - pattern.length)))
  else c1

/-- Backtracking match of the dateline regex `^[^\s]+\s*:\s*` at the start
of `l`: returns the remainder after the matched region, if any.  The
greedy `[^\s]+` first consumes the whole leading non-whitespace run `w`,
then backtracks to shorter splits, so the match succeeds either with the
colon found after `w` (skipping whitespace) or at the rightmost colon
strictly inside `w`. -/
def datelineMatch (l : List Char) : Option (List Char) :=
  let w := l.takeWhile (fun c => !isPyWs c)
  if w.length = 0 then none
  else
    let rest := l.drop w.length
    let afterWs := rest.dropWhile isPyWs
    match afterWs with
    | ':' :: tail => some (tail.dropWhile isPyWs)
    | _ =>
      match (List.range w.length).foldl
          (fun acc i => if 1 ≤ i ∧ w.getD i ' ' = ':' then some i else acc) none with
      | some i => some (((w.drop (i + 1)) ++ rest).dropWhile isPyWs)
      | none => none

/-- `clean_article_content` of the source: strip, remove the cleanup
patterns from both ends, remove a leading dateline (`Location :`),
collapse whitespace, and strip again. -/
def clean_article_content (text : String) : String :=
  if text = "" then text
  else
    let cleaned := pyStrip text
    let cleaned := CLEANUP_PATTERNS.foldl stripPatternEnds cleaned
    let cleaned :=
      match datelineMatch cleaned.data with
      | some rest => pyStrip (String.mk rest)
      | none => cleaned
    let cleaned := collapseWhitespace cleaned
    pyStrip cleaned

/-! ## Datetime model -/
/-- A Python `datetime` value (naive, as produced by
`parse_nepali_datetime` / `datetime.fromisoformat`). -/
structure PyDatetime where
  year : Nat
  month : Nat
  day : Nat
  hour : Nat
  minute : Nat
  second : Nat
  microsecond : Nat
deriving Repr, DecidableEq

/-- Decimal digit character for `n % 10`. -/
def digitChar (n : Nat) : Char := Char.ofNat (48 + n % 10)

/-- Decimal digits of `n`, most significant first (fuel-based worker; the
value strictly decreases each step, so fuel `n` always suffices). -/
def natToDecAux : Nat → Nat → List Char → List Char
  | 0, _, acc => acc
  | _ + 1, 0, acc => acc
  | fuel + 1, n + 1, acc =>
    natToDecAux fuel ((n + 1) / 10) (digitChar ((n + 1) % 10) :: acc)

/-- Decimal representation of a natural number. -/
def natToDecList (n : Nat) : List Char :=
  if n = 0 then ['0'] else natToDecAux n n []

/-- Zero-pad a digit list on the left to width `w`. -/
def padZeros (w : Nat) (l : List Char) : List Char :=
  List.replicate (w - l.length) '0' ++ l

/-- `n` rendered as a decimal number zero-padded to width `w`. -/
def padNat (w n : Nat) : List Char := padZeros w (natToDecList n)

/-- Python `datetime.isoformat()`: `YYYY-MM-DDTHH:MM:SS[.ffffff]`, the
fractional part present exactly when the microsecond field is nonzero. -/
def isoformatDT (t : PyDatetime) : String :=
  String.mk (padNat 4 t.year ++ '-' :: padNat 2 t.month ++ '-' :: padNat 2 t.day ++
    'T' :: padNat 2 t.hour ++ ':' :: padNat 2 t.minute ++ ':' :: padNat 2 t.second ++
    (if t.microsecond = 0 then [] else '.' :: padNat 6 t.microsecond))

/-! ## The BeautifulSoup oracle model

An HTML element is abstract: the embedding records exactly the
observations the source makes of it.  `cleanText` models
`clean_text(element)` (BeautifulSoup `get_text(separator=' ', strip=True)`
followed by `unicodedata.normalize('NFC', ...)`, both external library
calls); the other text fields model the other `get_text` variants invoked
by the source.  `truthy` models Python truthiness of a bs4 `Tag`, which is
`len(tag.contents) > 0`. -/
/-- Leaf observations of a bs4 element. -/
structure PyLeaf where
  truthy : Bool
  elemStr : String
  cleanText : String
  textSpaceSep : String
  textStrip : String
  textNl : String
  datetimeAttr : Option String
  contentAttr : Option String
deriving Repr, DecidableEq

/-- A descendant node as observed by `extract_merolagani_content`
(`child.name` and `child.string`). -/
structure DNode where
  name : Option String
  strAttr : Option String
deriving Repr, DecidableEq

/-- A bs4 element on which the source performs sub-queries
(`element.select`, `element.find_all('p')`, `element.descendants`). -/
structure PyTag extends PyLeaf where
  select : String → List PyLeaf
  findAllP : List PyLeaf
  descendants : List DNode

/-- A raw text node as observed by the tier-4 scan of
`extract_generic_content` (`soup.find_all(string=True)`). -/
structure TextNode where
  text : String
  parentName : Option String
deriving Repr, DecidableEq

/-- The oracle model of one parsed page: each field is the result of one
BeautifulSoup query the source performs.  `publishTime` models
`extract_publish_time(soup, url)` as a black box, because that routine
wraps `datetime.now()`, `datetime.fromisoformat` and Unicode-digit regex
parsing (external stdlib behaviour); it returns a `datetime` or `None`,
which is all `parse_html_content` observes of it. -/
structure SoupModel where
  select : String → List PyTag
  selectOne : String → Option PyTag
  findAllP : List PyTag
  findBlocks : List PyTag
  findStrings : List TextNode
  findTitleTag : Option PyTag
  publishTime : String → Option PyDatetime

/-! ## Generic content strategy (`extract_generic_content`) -/
/-- A `(text, length, selector)` body candidate of
`extract_generic_content`. -/
structure GCand where
  text : String
  len : Nat
  sel : String
deriving Repr, DecidableEq, Inhabited

/-- Tier 1: structural selector candidates — every truthy element whose
cleaned text is nonempty, longer than 100 characters and not navigation
content. -/
def tier1Candidates (soup : SoupModel) : List GCand :=
  ARTICLE_SELECTORS.flatMap (fun selector =>
    (soup.select selector).filterMap (fun element =>
      if element.truthy then
        let text := element.cleanText
        if text ≠ "" ∧ text.length > 100 ∧ is_navigation_content text = false then
          some ⟨text, text.length, selector⟩
        else none
      else none))

/-- Tier 2 fragment list: paragraphs with nonempty cleaned text longer
than 20 characters that are not navigation content. -/
def goodParagraphs (soup : SoupModel) : List String :=
  soup.findAllP.filterMap (fun p =>
    let t := p.cleanText
    if t ≠ "" ∧ t.length > 20 ∧ is_navigation_content t = false then some t else none)

/-- Tier 2: the concatenation of the good paragraphs, kept when longer
than 50 characters. -/
def tier2Candidates (soup : SoupModel) : List GCand :=
  if soup.findAllP.isEmpty = false then
    let gp := goodParagraphs soup
    if gp ≠ [] then
      let combined := joinSpace gp
      if combined.length > 50 then [⟨combined, combined.length, "filtered_paragraphs"⟩]
      else []
    else []
  else []

/-- Tier 3: block-level elements with more than 100 characters of
substantial Nepali, non-navigation content. -/
def tier3Candidates (soup : SoupModel) : List GCand :=
  soup.findBlocks.filterMap (fun element =>
    let text := element.cleanText
    if text.length > 100 ∧ has_substantial_nepali_content text = true ∧
        is_navigation_content text = false then
      some ⟨text, text.length, "nepali_content_element"⟩
    else none)

/-- Tier 4 fragment list: raw text nodes longer than 30 characters with
substantial Nepali, non-navigation content, whose parent exists and is not
a `script`/`style`/`title` element. -/
def nepaliTexts (soup : SoupModel) : List String :=
  soup.findStrings.filterMap (fun node =>
    let text := pyStrip node.text
    if text.length > 30 ∧ has_substantial_nepali_content text = true ∧
        is_navigation_content text = false then
      match node.parentName with
      | some n => if n ≠ "script" ∧ n ≠ "style" ∧ n ≠ "title" then some text else none
      | none => none
    else none)

/-- Tier 4: the concatenation of the kept text nodes, kept when longer
than 50 characters. -/
def tier4Candidates (soup : SoupModel) : List GCand :=
  let nt := nepaliTexts soup
  if nt ≠ [] then
    let combined := joinSpace nt
    if combined.length > 50 then [⟨combined, combined.length, "combined_nepali_text"⟩]
    else []
  else []

/-- The full candidate cascade: each later tier is consulted only when the
candidate list is still empty. -/
def genericBodyCandidates (soup : SoupModel) : List GCand :=
  let c1 := tier1Candidates soup
  if c1 ≠ [] then c1
  else
    let c2 := tier2Candidates soup
    if c2 ≠ [] then c2
    else
      let c3 := tier3Candidates soup
      if c3 ≠ [] then c3
      else tier4Candidates soup

/-- Stable insertion into a length-descending list (a candidate is placed
after all candidates of greater or equal length, matching the stability of
Python's `list.sort(key=..., reverse=True)`). -/
def insertByLenDesc (c : GCand) : List GCand → List GCand
  | [] => [c]
  | d :: ds => if c.len > d.len then c :: d :: ds else d :: insertByLenDesc c ds

/-- Stable sort by candidate length, descending. -/
def sortByLenDesc (l : List GCand) : List GCand :=
  l.foldl (fun acc c => insertByLenDesc c acc) []

/-- The candidate selection of `extract_generic_content`: prefer
candidates with substantial Nepali content, sorted by length descending;
otherwise take the longest candidate overall. -/
def selectBest (cands : List GCand) : GCand :=
  let nepali := cands.filter (fun c => has_substantial_nepali_content c.text)
  if nepali ≠ [] then (sortByLenDesc nepali).headD default
  else (sortByLenDesc cands).headD default

/-- `extract_generic_content` of the source: candidate cascade, selection,
`clean_article_content`, truncation with an ellipsis marker; falls back to
the page title when it has substantial Nepali content, and otherwise
returns the empty string. -/
def extract_generic_content (soup : SoupModel) (max_length : Nat) : String :=
  let body_candidates := genericBodyCandidates soup
  if body_candidates ≠ [] then
    let best_text := clean_article_content (selectBest body_candidates).text
    if best_text.length > max_length then pySliceTo best_text max_length ++ "..."
    else best_text
  else
    match soup.findTitleTag with
    | some titleElem =>
      if titleElem.truthy then
        if has_substantial_nepali_content titleElem.cleanText then titleElem.cleanText
        else ""
      else ""
    | none => ""

/-! ## Metadata extractors -/
/-- The `TITLE_SELECTORS` loop of `extract_title`: the first truthy
element whose cleaned text is nonempty and longer than 5 characters. -/
def titleLoop (soup : SoupModel) : List String → Option String
  | [] => none
  | sel :: rest =>
    match soup.selectOne sel with
    | some element =>
      if element.truthy then
        let title := element.cleanText
        if title ≠ "" ∧ title.length > 5 then some title else titleLoop soup rest
      else titleLoop soup rest
    | none => titleLoop soup rest

/-- An ASCII letter (the cased characters of the model). -/
def isCasedChar (c : Char) : Bool :=
  (decide (97 ≤ c.toNat) && decide (c.toNat ≤ 122)) ||
  (decide (65 ≤ c.toNat) && decide (c.toNat ≤ 90))

/-- ASCII lower-casing by code point. -/
def asciiLower (c : Char) : Char :=
  if decide (65 ≤ c.toNat) && decide (c.toNat ≤ 90) then Char.ofNat (c.toNat + 32) else c

/-- ASCII upper-casing by code point. -/
def asciiUpper (c : Char) : Char :=
  if decide (97 ≤ c.toNat) && decide (c.toNat ≤ 122) then Char.ofNat (c.toNat - 32) else c

/-- Python `str.title()` restricted to ASCII casing: a cased character is
upper-cased after an uncased character and lower-cased otherwise
(Devanagari characters are uncased, so they are left unchanged, exactly as
in Python). -/
def pyTitleCase (s : String) : String :=
  String.mk ((s.data.foldl
    (fun (st : List Char × Bool) c =>
      if isCasedChar c then
        if st.2 then (asciiLower c :: st.1, true) else (asciiUpper c :: st.1, true)
      else (c :: st.1, false))
    ([], false)).1.reverse)

/-- Python `s.replace(a, b)` for single-character pattern and
replacement. -/
def pyReplaceChar (a b : Char) (s : String) : String :=
  String.mk (s.data.map (fun c => if c == a then b else c))

/-- Python `s.split(sep)` for a single-character separator: always yields
at least one (possibly empty) segment. -/
def splitOnChar (sep : Char) : List Char → List (List Char)
  | [] => [[]]
  | c :: rest =>
    let r := splitOnChar sep rest
    if c = sep then [] :: r
    else
      match r with
      | h :: t => (c :: h) :: t
      | [] => [[c]]

/-- Python `s.split(sep)` on strings, for one-character separators (the
source only splits on `'।'`, `'\n'` and `'/'`). -/
def pySplitChar (sep : Char) (s : String) : List String :=
  (splitOnChar sep s.data).map String.mk

/-- The URL-derived fallback title of `extract_title`: last path segment
of the stripped URL path, hyphens/underscores replaced by spaces,
title-cased.  Empty when the URL path is empty or all slashes. -/
def urlDerivedTitle (url : String) : String :=
  pyTitleCase (pyReplaceChar '_' ' ' (pyReplaceChar '-' ' '
    (String.mk ((splitOnChar '/' (pyStripSlash (urlPath url)).data).getLastD []))))

/-- `extract_title` of the source.  `path_parts` is never empty (Python
`''.split('/') == ['']`), so the trailing `"Unknown Title"` return is
reachable only if `urlparse` raises, which the total model never does. -/
def extract_title (soup : SoupModel) (url : String) : String :=
  match titleLoop soup TITLE_SELECTORS with
  | some title => title
  | none =>
    let path_parts := splitOnChar '/' (pyStripSlash (urlPath url)).data
    if path_parts ≠ [] then
      pyTitleCase (pyReplaceChar '_' ' ' (pyReplaceChar '-' ' '
        (String.mk (path_parts.getLastD []))))
    else "Unknown Title"

/-- `extract_author` of the source: first truthy element whose cleaned
text is nonempty and shorter than 100 characters. -/
def extract_author (soup : SoupModel) : Option String :=
  (AUTHOR_SELECTORS.foldl
    (fun acc sel =>
      match acc with
      | some a => some a
      | none =>
        match soup.selectOne sel with
        | some element =>
          if element.truthy then
            let author := element.cleanText
            if author ≠ "" ∧ author.length < 100 then some author else none
          else none
        | none => none)
    none)

/-- Python `a or b` for optional strings: the first operand wins when it
is a nonempty string. -/
def pyOrStr (a b : Option String) : Option String :=
  match a with
  | some s => if s ≠ "" then some s else b
  | none => b

/-- `extract_published_date` of the source: for each date selector, prefer
the `datetime`/`content` attribute; otherwise the cleaned text when
nonempty and shorter than 50 characters; continue with the next selector
when neither applies. -/
def extract_published_date (soup : SoupModel) : Option String :=
  (DATE_SELECTORS.foldl
    (fun acc sel =>
      match acc with
      | some d => some d
      | none =>
        match soup.selectOne sel with
        | some element =>
          if element.truthy then
            match pyOrStr element.datetimeAttr element.contentAttr with
            | some dv =>
              if dv ≠ "" then some dv
              else
                let date_text := element.cleanText
                if date_text ≠ "" ∧ date_text.length < 50 then some date_text else none
            | none =>
              let date_text := element.cleanText
              if date_text ≠ "" ∧ date_text.length < 50 then some date_text else none
          else none
        | none => none)
    none)

/-! ## Merolagani strategy (`extract_merolagani_content_full`) -/
/-- Sidebar indicators checked against `str(element).lower()` by
`is_merolagani_sidebar_content`. -/
def ML_SIDEBAR_INDICATORS : List String :=
  ["sidebar", "related", "popular", "trending", "more-news", "right-column",
   "side-content", "widget", "advertisement"]

/-- `is_merolagani_sidebar_content` of the source: a falsy element is not
sidebar; otherwise an element is sidebar when its HTML serialization
contains a sidebar indicator, or when its stripped text packs more than
two question marks into fewer than 500 characters. -/
def is_merolagani_sidebar_content (element : PyLeaf) : Bool :=
  if element.truthy = false then false
  else if ML_SIDEBAR_INDICATORS.any (fun ind => occursStr ind (pyLower element.elemStr)) then
    true
  else
    let text := element.textStrip
    if text ≠ "" then
      decide (countChar '?' text > 2 ∧ text.length < 500)
    else false

/-- `is_merolagani_sidebar_content_text` of the source. -/
def is_merolagani_sidebar_content_text (text : String) : Bool :=
  (["शेयर बजार", "आईपीओ", "कम्पनी", "लाभांश", "नेप्से",
    "ट्रयाक रकेर्ड", "कालो सोमबार", "राइट शेयर",
    "पाइपलाईन", "दशैं पछि", "मनसुन बहिर्गमन",
    "अष्टमी,नवमी", "टीकाकै दिन", "पूर्वानुमान रिपाेर्ट"] : List String).any
    (fun pattern => occursStr pattern text)

/-- The end-of-article patterns of `is_merolagani_article_end`. -/
def ML_END_PATTERNS : List String :=
  ["दशैकाे भाेलीपल्टदेखि",
   "दशैं पछि के होला",
   "वर्षको \x27ट्रयाक रकेर्ड\x27",
   "शेयर बजारमा \x27कालो सोमबार\x27",
   "प्राथमिक हुदै दोस्रो बजार",
   "आईपीओ र राइट शेयर",
   "दशैँको टीकाकै दिन",
   "मनसुन बहिर्गमन",
   "अष्टमी,नवमी र दशमी",
   "मौसम पूर्वानुमान रिपाेर्ट",
   "सुचना तथा प्रसारण विभाग",
   "प्रकाशक -",
   "editor@merolagani.com",
   "एस्ट्रिक टेक्नोलोजी",
   "द.न. ४४०",
   "रिपाेर्ट सुचना तथा प्रसारण",
   "? दशैं पछि के होला",
   "? ५ वर्षको",
   "ले दिएको चेतावनी प्राथमिक",
   "पाइपलाईनमा ? दशैँको"]

/-- `is_merolagani_article_end` of the source. -/
def is_merolagani_article_end (line : String) : Bool :=
  ML_END_PATTERNS.any (fun pattern => occursStr pattern line)

/-- The additional partial-match filter of `clean_merolagani_content`. -/
def ML_CLEAN_UNWANTED : List String :=
  ["शेयर बजार", "आईपीओ", "राइट शेयर", "मनसुन बहिर्गमन",
   "प्रकाशक", "editor@", "द.न.", "एस्ट्रिक टेक्नोलोजी",
   "सुचना तथा प्रसारण", "ट्रयाक रकेर्ड", "कालो सोमबार"]

/-- `clean_merolagani_content` of the source: split on the Nepali sentence
terminator, keep stripped sentences that are nonempty, not end-of-article
and free of the unwanted fragments, and rejoin. -/
def clean_merolagani_content (text : String) : String :=
  if text = "" then text
  else
    let sentences := pySplitChar '।' text
    let clean_sentences := sentences.filterMap (fun sentence0 =>
      let sentence := pyStrip sentence0
      if sentence ≠ "" ∧ is_merolagani_article_end sentence = false ∧
          (ML_CLEAN_UNWANTED.any (fun unwanted => occursStr unwanted sentence)) = false then
        some sentence
      else none)
    pyStrip (joinWith "।" clean_sentences)

/-- The skip fragments of the first loop of `extract_merolagani_content`,
matched against `text.lower()`. -/
def ML_SKIP_1 : List String :=
  ["facebook", "twitter", "whatsapp", "copy link", "popular news",
   "more", "log in", "edit account", "change password", "search",
   "कम्पनीले गरे लाभांश", "प्रतिशतसम्म लाभांश", "sep ", "am", "pm"]

/-- The skip fragments of the second loop of `extract_merolagani_content`. -/
def ML_SKIP_2 : List String :=
  ["facebook", "twitter", "whatsapp", "copy link", "popular news",
   "more", "log in", "edit account", "change password", "search",
   "कम्पनीले गरे लाभांश", "प्रतिशतसम्म लाभांश", "sep ", "am", "pm",
   "edit account", "verify mobile", "remove account", "log out"]

/-- `extract_merolagani_content` of the source: collect `p`/`div`
descendants whose own string is article-like; when none qualify, fall back
to filtering the newline-separated text of the element. -/
def extract_merolagani_content (element : PyTag) : String :=
  if element.truthy = false then ""
  else
    let content_parts := element.descendants.filterMap (fun child =>
      match child.name, child.strAttr with
      | some n, some s =>
        if (n = "p" ∨ n = "div") ∧ s ≠ "" then
          let text := pyStrip s
          if text.length > 30 ∧
              (ML_SKIP_1.any (fun skip => occursStr skip (pyLower text))) = false ∧
              containsDevanagari text = true then
            some text
          else none
        else none
      | _, _ => none)
    let content_parts :=
      if content_parts = [] then
        (pySplitChar '\n' element.textNl).filterMap (fun line0 =>
          let line := pyStrip line0
          if line.length > 30 ∧
              (ML_SKIP_2.any (fun skip => occursStr skip (pyLower line))) = false ∧
              containsDevanagari line = true then
            some line
          else none)
      else content_parts
    if content_parts ≠ [] then joinSpace content_parts else ""

/-- The main-container selectors of `extract_merolagani_main_article`. -/
def ML_MAIN_SELECTORS : List String :=
  ["div[class*=\"news-detail\"]", "div[class*=\"article-content\"]",
   "div[class*=\"main-content\"]", ".news-content", "article",
   "div[id*=\"news\"]", "div[id*=\"article\"]"]

/-- The per-container line filter of `extract_merolagani_main_article`. -/
def mlContainerParts (container : PyTag) : List String :=
  let text := container.textSpaceSep
  if text ≠ "" ∧ text.length > 200 then
    (pySplitChar '\n' text).filterMap (fun line0 =>
      let line := pyStrip line0
      if line.length > 30 ∧ is_merolagani_article_end line = false ∧
          is_merolagani_sidebar_content_text line = false ∧
          containsDevanagari line = true then
        some line
      else none)
  else []

/-- The container loop of `extract_merolagani_main_article`: skip sidebar
containers; the first container that yields at least one qualifying line
determines the result (earlier qualifying containers that yielded no line
contribute nothing to the accumulated list, so this equals the source's
accumulate-then-return loop). -/
def mlMainLoop : List PyTag → String
  | [] => ""
  | container :: rest =>
    if is_merolagani_sidebar_content container.toPyLeaf then mlMainLoop rest
    else
      let parts := mlContainerParts container
      if parts ≠ [] then joinSpace parts else mlMainLoop rest

/-- `extract_merolagani_main_article` of the source. -/
def extract_merolagani_main_article (soup : SoupModel) : String :=
  mlMainLoop (ML_MAIN_SELECTORS.flatMap soup.select)

/-- Python `a or b` on optional bs4 tags: the first operand wins when it
is a truthy tag. -/
def pyOrTag (a b : Option PyTag) : Option PyTag :=
  match a with
  | some e => if e.truthy then some e else b
  | none => b

/-- `extract_merolagani_content_full` of the source: main-article
extraction, then the content-div fallback, then sidebar-filtered paragraph
extraction; every branch is cleaned by `clean_merolagani_content` and
sliced to `max_length` (plain Python slicing, no ellipsis marker). -/
def extract_merolagani_content_full (soup : SoupModel) (max_length : Nat) : String :=
  let main_content := extract_merolagani_main_article soup
  if main_content ≠ "" ∧ main_content.length > 100 then
    pySliceTo (clean_merolagani_content main_content) max_length
  else
    let content_div := pyOrTag (soup.selectOne "div[class*=\"content\"]") (soup.selectOne ".content")
    let fromDiv :=
      match content_div with
      | some cd =>
        if cd.truthy then
          let extracted := extract_merolagani_content cd
          if extracted ≠ "" ∧ extracted.length > 100 then
            some (pySliceTo (clean_merolagani_content extracted) max_length)
          else none
        else none
      | none => none
    match fromDiv with
    | some r => r
    | none =>
      let content_parts := soup.findAllP.filterMap (fun p =>
        if is_merolagani_sidebar_content p.toPyLeaf then none
        else
          let text := p.cleanText
          if text ≠ "" ∧ text.length > 30 ∧ has_substantial_nepali_content text = true then
            if is_navigation_content text = false ∧ is_merolagani_article_end text = false then
              some text
            else none
          else none)
      pySliceTo (clean_merolagani_content (joinSpace content_parts)) max_length

/-! ## Bikash News strategy (`extract_bikashnews_content_full`) -/
/-- Sidebar indicators of `is_bikashnews_sidebar_content`. -/
def BK_SIDEBAR_INDICATORS : List String :=
  ["sidebar", "related", "popular", "trending", "more-news", "right-column",
   "side-content", "widget", "advertisement", "share-news", "social-share",
   "pdf-viewer"]

/-- `is_bikashnews_sidebar_content` of the source: a falsy element is not
sidebar; otherwise the element's HTML serialization is checked for the
indicator fragments (lower-cased). -/
def is_bikashnews_sidebar_content (element : PyLeaf) : Bool :=
  if element.truthy = false then false
  else BK_SIDEBAR_INDICATORS.any (fun ind => occursStr ind (pyLower element.elemStr))

/-- `is_bikashnews_sidebar_content_text` of the source. -/
def is_bikashnews_sidebar_content_text (text : String) : Bool :=
  (["Share News लोकप्रिय", "लाभांश सिजन", "नेपाल एसबिआई", "भूषण राणा",
    "एनआईसी एशिया बैंक", "सम्बन्धित खबर", "Loading WEBGL", "Loading PDF",
    "Share Previous Page", "Toggle Outline", "Zoom In", "Download PDF"] :
    List String).any (fun pattern => occursStr pattern text)

/-- `is_bikashnews_unwanted_content` of the source. -/
def is_bikashnews_unwanted_content (text : String) : Bool :=
  (["Loading WEBGL 3D", "Loading PDF 100%", "Share Previous Page",
    "Toggle Outline/Bookmark", "Toggle Thumbnails", "Zoom In Zoom Out",
    "Toggle Fullscreen", "Download PDF File", "Double Page Mode",
    "Goto First Page", "Goto Last Page", "Turn on/off Sound",
    "Share News लोकप्रिय", "सबै पढ्नुहोस्", "लाभांश सिजन", "नेपाल एसबिआई",
    "भूषण राणा", "एनआईसी एशिया बैंक", "सम्बन्धित खबर",
    "विकासन्युज आइतबार", "अ अ काठमाडौं"] : List String).any
    (fun pattern => occursStr pattern text)

/-! ### The two leading-boilerplate regexes of `clean_bikashnews_content`

`re.sub(r'^[^।]*X[^।]*Y\s*।\s*', '', text, flags=re.MULTILINE)` and
`re.sub(r'^[^।]*X[^।]*।\s*', '', text, flags=re.MULTILINE)`.  A match can
only start at a line start; all of `X`, `Y` and the inter-pattern
whitespace must lie before the first `।` at or after the match position
(since `[^।]*` and `\s` cannot cross it), so the matched region always
runs from the line start through that first `।` plus the trailing
whitespace run. -/
/-- Match attempt for `^[^।]*X[^।]*Y\s*।\s*` at the start of `l`:
the segment before the first `।` must end (after trailing whitespace)
with `Y`, with an occurrence of `X` fully before that `Y`. -/
def bkTryMatchA (X Y : List Char) (l : List Char) : Option Nat :=
  let span := l.takeWhile (fun c => c ≠ '।')
  if span.length = l.length then none
  else
    let stripped := dropTrailing isPyWs span
    if trailsWith Y stripped then
      let b := stripped.length - Y.length
      if occursInList X (span.take b) then
        let after := l.drop (span.length + 1)
        some (span.length + 1 + (after.takeWhile isPyWs).length)
      else none
    else none

/-- Match attempt for `^[^।]*X[^।]*।\s*` at the start of `l`. -/
def bkTryMatchB (X : List Char) (l : List Char) : Option Nat :=
  let span := l.takeWhile (fun c => c ≠ '।')
  if span.length = l.length then none
  else if occursInList X span then
    let after := l.drop (span.length + 1)
    some (span.length + 1 + (after.takeWhile isPyWs).length)
  else none

/-- Global multiline substitution scan: at every line-start position
attempt the match and delete the matched region; scanning resumes at the
position after the deleted region (non-overlapping matches, as in
`re.sub`). -/
def bkSubScan (tryM : List Char → Option Nat) : Nat → Bool → List Char → List Char
  | 0, _, l => l
  | _ + 1, _, [] => []
  | fuel + 1, atLineStart, c :: rest =>
    if atLineStart then
      match tryM (c :: rest) with
      | some n =>
        bkSubScan tryM fuel (((c :: rest).take n).getLastD ' ' == '\n') ((c :: rest).drop n)
      | none => c :: bkSubScan tryM fuel (c == '\n') rest
    else c :: bkSubScan tryM fuel (c == '\n') rest

/-- Apply one multiline start-pattern substitution to a string. -/
def bkStartSub (tryM : List Char → Option Nat) (s : String) : String :=
  String.mk (bkSubScan tryM (s.data.length + 1) true s.data)

/-- `re.sub(r'lit.*$', '', text, flags=re.DOTALL)`: truncate at the first
occurrence of the literal. -/
def cutAtFirst (pat : String) (s : String) : String :=
  match breakAtSub pat.data s.data with
  | some (pre, _) => String.mk pre
  | none => s

/-- The additional partial-match filter of `clean_bikashnews_content`. -/
def BK_PARTIAL_UNWANTED : List String :=
  ["Loading", "Share", "Toggle", "Zoom", "Download", "PDF",
   "लाभांश सिजन", "नेपाल एसबिआई", "भूषण राणा",
   "सम्बन्धित खबर", "विकासन्युज आइतबार"]

/-- `clean_bikashnews_content` of the source: remove the two leading
boilerplate patterns, filter sentences, rejoin, then truncate at each of
the trailing boilerplate markers. -/
def clean_bikashnews_content (text : String) : String :=
  if text = "" then text
  else
    let t := bkStartSub (bkTryMatchA "विकासन्युज आइतबार".data "अ अ काठमाडौं".data) text
    let t := bkStartSub (bkTryMatchB "Loading".data) t
    let clean_sentences := (pySplitChar '।' t).filterMap (fun sentence0 =>
      let sentence := pyStrip sentence0
      if sentence ≠ "" ∧ is_bikashnews_unwanted_content sentence = false ∧
          (BK_PARTIAL_UNWANTED.any (fun unwanted => occursStr unwanted sentence)) = false then
        some sentence
      else none)
    let cleaned_text := pyStrip (joinWith "।" clean_sentences)
    let cleaned_text := cutAtFirst "Share News लोकप्रिय" cleaned_text
    let cleaned_text := cutAtFirst "सम्बन्धित खबर" cleaned_text
    let cleaned_text := cutAtFirst "Loading" cleaned_text
    pyStrip cleaned_text

/-- The main-container selectors of `extract_bikashnews_main_article`. -/
def BK_MAIN_SELECTORS : List String :=
  ["div[class*=\"story-content\"]", "div[class*=\"article-content\"]",
   "div[class*=\"news-content\"]", "div[class*=\"main-content\"]",
   ".post-content", "article", "div[id*=\"story\"]", "div[id*=\"article\"]"]

/-- The per-container sentence filter of `extract_bikashnews_main_article`
(split on the Nepali sentence terminator). -/
def bkContainerParts (container : PyTag) : List String :=
  let text := container.textSpaceSep
  if text ≠ "" ∧ text.length > 200 then
    (pySplitChar '।' text).filterMap (fun line0 =>
      let line := pyStrip line0
      if line.length > 30 ∧ is_bikashnews_unwanted_content line = false ∧
          is_bikashnews_sidebar_content_text line = false ∧
          containsDevanagari line = true then
        some line
      else none)
  else []

/-- The container loop of `extract_bikashnews_main_article` (same
accumulate-then-return structure as the merolagani loop). -/
def bkMainLoop : List PyTag → String
  | [] => ""
  | container :: rest =>
    if is_bikashnews_sidebar_content container.toPyLeaf then bkMainLoop rest
    else
      let parts := bkContainerParts container
      if parts ≠ [] then joinWith "।" parts else bkMainLoop rest

/-- `extract_bikashnews_main_article` of the source. -/
def extract_bikashnews_main_article (soup : SoupModel) : String :=
  bkMainLoop (BK_MAIN_SELECTORS.flatMap soup.select)

/-- The selector table of `extract_bikashnews_content`. -/
def BK_CONTENT_SELECTORS : List String :=
  [".story-content", ".news-content", ".article-body", ".post-content",
   "article .content", ".main-content", "div[class*=\"content\"] p",
   "article p"]

/-- `extract_bikashnews_content` of the source.  It is declared on a soup
but invoked on the content div, so the receiver is modelled as an element
carrying its own sub-queries.  Truncation is plain slicing. -/
def extract_bikashnews_content (element : PyTag) (max_length : Nat) : String :=
  let content_parts := BK_CONTENT_SELECTORS.flatMap (fun sel =>
    (element.select sel).filterMap (fun e =>
      let text := e.cleanText
      if text ≠ "" ∧ text.length > 50 ∧ has_substantial_nepali_content text = true ∧
          is_navigation_content text = false then
        some text
      else none))
  let content_parts :=
    if content_parts = [] then
      element.findAllP.filterMap (fun p =>
        let text := p.cleanText
        if text ≠ "" ∧ text.length > 30 ∧ has_substantial_nepali_content text = true ∧
            is_navigation_content text = false then
          some text
        else none)
    else content_parts
  let result := joinSpace content_parts
  if result.length > max_length then pySliceTo result max_length else result

/-- `extract_bikashnews_content_full` of the source: main-article
extraction, then the content-div fallback (with doubled interim length
budget), then sidebar-filtered paragraph extraction; every branch is
cleaned by `clean_bikashnews_content` and sliced to `max_length`. -/
def extract_bikashnews_content_full (soup : SoupModel) (max_length : Nat) : String :=
  let main_content := extract_bikashnews_main_article soup
  if main_content ≠ "" ∧ main_content.length > 100 then
    pySliceTo (clean_bikashnews_content main_content) max_length
  else
    let content_div := pyOrTag (soup.selectOne "div[class*=\"content\"]") (soup.selectOne ".content")
    let fromDiv :=
      match content_div with
      | some cd =>
        if cd.truthy then
          let extracted := extract_bikashnews_content cd (max_length * 2)
          if extracted ≠ "" ∧ extracted.length > 100 then
            some (pySliceTo (clean_bikashnews_content extracted) max_length)
          else none
        else none
      | none => none
    match fromDiv with
    | some r => r
    | none =>
      let content_parts := soup.findAllP.filterMap (fun p =>
        if is_bikashnews_sidebar_content p.toPyLeaf then none
        else
          let text := p.cleanText
          if text ≠ "" ∧ text.length > 30 ∧ has_substantial_nepali_content text = true then
            if is_navigation_content text = false ∧ is_bikashnews_unwanted_content text = false then
              some text
            else none
          else none)
      pySliceTo (clean_bikashnews_content (joinSpace content_parts)) max_length

/-! ## `extract_body_text`, `parse_html_content` and the orchestrator -/
/-- `extract_body_text` of the source: dispatch by plain substring match
on the URL. -/
def extract_body_text (soup : SoupModel) (url : String) (max_length : Nat) : String :=
  if occursStr "merolagani.com" url then extract_merolagani_content_full soup max_length
  else if occursStr "bikashnews.com" url then extract_bikashnews_content_full soup max_length
  else extract_generic_content soup max_length

/-- The structured result dictionary of the extractor.  `parser_method`
and `fallback_error` model keys that are present only on some paths. -/
structure Record where
  url : String
  title : String
  published : Option String
  author : Option String
  body_text : String
  parser_status : String
  parser_method : Option String
  fallback_error : Option String
deriving Repr, DecidableEq

/-- Outcome of handing an HTML text to BeautifulSoup inside
`parse_html_content`: either the parsed soup, or an exception from the
parsing/extraction machinery (caught by the function's own `except`). -/
inductive ParseOutcome where
  | crash
  | soup (s : SoupModel)

/-- `parse_html_content` of the source: extract metadata and body, then
compute the parser status gate — `success` exactly when the body text is
nonempty (Python truthiness), its stripped length exceeds 200, and it
contains a Devanagari character; any internal exception yields the
`Parse Error` record with status `failed`. -/
def parse_html_content (po : ParseOutcome) (url : String) (max_body_length : Nat) : Record :=
  match po with
  | .crash =>
    { url := url, title := "Parse Error", published := none, author := none,
      body_text := "", parser_status := "failed", parser_method := none,
      fallback_error := none }
  | .soup s =>
    let title := extract_title s url
    let author := extract_author s
    let published :=
      match s.publishTime url with
      | some t => some (isoformatDT t)
      | none => extract_published_date s
    let body_text := extract_body_text s url max_body_length
    let has_nepali := if body_text ≠ "" then containsDevanagari body_text else false
    let is_substantial := if body_text ≠ "" then decide ((pyStrip body_text).length > 200) else false
    let parser_status :=
      if body_text ≠ "" ∧ is_substantial = true ∧ has_nepali = true then "success" else "failed"
    { url := url, title := title, published := published, author := author,
      body_text := body_text, parser_status := parser_status,
      parser_method := none, fallback_error := none }

/-- The effect environment of the orchestrator.  `download` models
`download_article` followed by BeautifulSoup parsing on the standard path
(`Except.error` is a transport exception, `ParseOutcome.crash` an
exception inside `parse_html_content`); `render` models
`fetch_rendered_html` on the browser path (`Except.error` is a Playwright
exception); `playwrightAvailable` models `PLAYWRIGHT_AVAILABLE`. -/
structure Env where
  download : String → Except String ParseOutcome
  render : String → Except String ParseOutcome
  playwrightAvailable : Bool

/-- `extract_with_browser_rendering` of the source: render, parse, mark
the method, downgrade a non-success parse to `fallback_failed`; a render
exception yields `fallback_error` with the message preserved; absence of
Playwright yields `fallback_unavailable`. -/
def extract_with_browser_rendering (env : Env) (url : String) (max_body_length : Nat) : Record :=
  if env.playwrightAvailable then
    match env.render url with
    | .ok po =>
      let result := parse_html_content po url max_body_length
      let result := { result with parser_method := some "browser_fallback" }
      if result.parser_status = "success" then result
      else { result with parser_status := "fallback_failed" }
    | .error e =>
      { url := url, title := "Browser Rendering Error", published := none,
        author := none, body_text := "", parser_status := "fallback_error",
        parser_method := some "browser_fallback", fallback_error := some e }
  else
    { url := url, title := "Browser Rendering Unavailable", published := none,
      author := none, body_text := "", parser_status := "fallback_unavailable",
      parser_method := some "browser_fallback", fallback_error := none }

/-- `extract_article_content` of the source: JS-heavy URLs (plain
substring match of any allow-list entry against the whole URL) go straight
to browser rendering; otherwise the standard path runs first and only a
`success` status returns directly with `parser_method = "standard"`; every
failure (validation or exception) falls through to browser rendering. -/
def extract_article_content (env : Env) (url : String) (max_body_length : Nat) : Record :=
  let use_browser_directly := JS_HEAVY_DOMAINS.any (fun domain => occursStr domain url)
  if use_browser_directly then extract_with_browser_rendering env url max_body_length
  else
    match env.download url with
    | .ok po =>
      let result := parse_html_content po url max_body_length
      if result.parser_status = "success" then { result with parser_method := some "standard" }
      else extract_with_browser_rendering env url max_body_length
    | .error _ => extract_with_browser_rendering env url max_body_length

/-- Instrumentation mirroring the call sites of `download_article` in
`extract_article_content`: the standard fetch is attempted exactly when
the URL is not routed directly to the browser. -/
def standardFetchCount (_env : Env) (url : String) : Nat :=
  if JS_HEAVY_DOMAINS.any (fun domain => occursStr domain url) then 0 else 1

/-- Instrumentation mirroring the call sites of
`extract_with_browser_rendering` in `extract_article_content`: the browser
path runs once for JS-heavy URLs and once after any standard-path failure,
and never otherwise. -/
def browserAttemptCount (env : Env) (url : String) (max_body_length : Nat) : Nat :=
  if JS_HEAVY_DOMAINS.any (fun domain => occursStr domain url) then 1
  else
    match env.download url with
    | .ok po =>
      if (parse_html_content po url max_body_length).parser_status = "success" then 0 else 1
    | .error _ => 1

/-! ## Concrete environments for witnesses -/
/-- A page on which every BeautifulSoup query comes back empty. -/
def soupEmpty : SoupModel :=
  { select := fun _ => [], selectOne := fun _ => none, findAllP := [],
    findBlocks := [], findStrings := [], findTitleTag := none,
    publishTime := fun _ => none }

/-- Environment with Playwright missing. -/
def envNoPlaywright : Env :=
  ⟨fun _ => .ok (.soup soupEmpty), fun _ => .ok (.soup soupEmpty), false⟩

/-- Environment whose renderer throws. -/
def envRenderBoom : Env :=
  ⟨fun _ => .ok (.soup soupEmpty), fun _ => .error "boom", true⟩

/-- Environment returning an empty page on both paths. -/
def envEmptyPage : Env :=
  ⟨fun _ => .ok (.soup soupEmpty), fun _ => .ok (.soup soupEmpty), true⟩

/-- Environment whose standard download throws a transport error. -/
def envDownloadErr : Env :=
  ⟨fun _ => .error "timeout", fun _ => .ok (.soup soupEmpty), true⟩

/-- A page with no usable title selector hit. -/
def soupNoTitle : SoupModel :=
  { select := fun _ => [], selectOne := fun _ => none, findAllP := [],
    findBlocks := [], findStrings := [], findTitleTag := none,
    publishTime := fun _ => none }

/-- A default leaf element for witnesses. -/
def leafDefault : PyLeaf :=
  { truthy := false, elemStr := "", cleanText := "", textSpaceSep := "",
    textStrip := "", textNl := "", datetimeAttr := none, contentAttr := none }

/-- A truthy tag whose cleaned text is the given string. -/
def tagOfClean (t : String) : PyTag :=
  { toPyLeaf := { leafDefault with truthy := true, cleanText := t },
    select := fun _ => [], findAllP := [], descendants := [] }

/-- A page whose `h1.entry-title` selector yields a usable title. -/
def soupWithTitle : SoupModel :=
  { select := fun _ => [],
    selectOne := fun sel => if sel = "h1.entry-title" then some (tagOfClean "Breaking News") else none,
    findAllP := [], findBlocks := [], findStrings := [], findTitleTag := none,
    publishTime := fun _ => none }

/-! ## C8: the `published` field -/
/-- ASCII decimal digit test. -/
def isDigitChar (c : Char) : Bool :=
  decide (48 ≤ c.toNat) && decide (c.toNat ≤ 57)

/-- Consume exactly `k` digits. -/
def eatDigits : Nat → List Char → Option (List Char)
  | 0, l => some l
  | _ + 1, [] => none
  | k + 1, c :: l => if isDigitChar c then eatDigits k l else none

/-- Consume one expected character. -/
def eatChar (ch : Char) : List Char → Option (List Char)
  | [] => none
  | c :: l => if c == ch then some l else none

/-- Time-zone designator: empty, `Z`, or `±HH:MM`. -/
def isoTZOk : List Char → Bool
  | [] => true
  | c :: rest =>
    (c == 'Z' && rest.isEmpty) ||
    ((c == '+' || c == '-') &&
      (match eatDigits 2 rest with
       | some r1 =>
         match eatChar ':' r1 with
         | some r2 =>
           match eatDigits 2 r2 with
           | some r3 => r3.isEmpty
           | none => false
         | none => false
       | none => false))

/-- Optional fractional seconds (`.` followed by at least one digit), then
an optional time zone. -/
def isoFracTz (l : List Char) : Bool :=
  match eatChar '.' l with
  | some rest =>
    (match rest with
     | c :: _ => isDigitChar c
     | [] => false) &&
    isoTZOk (rest.dropWhile isDigitChar)
  | none => isoTZOk l

/-- Time part `HH:MM[:SS[.ffffff]][tz]`. -/
def isoTimeOk (l : List Char) : Bool :=
  match eatDigits 2 l with
  | some r1 =>
    match eatChar ':' r1 with
    | some r2 =>
      match eatDigits 2 r2 with
      | some r3 =>
        (match eatChar ':' r3 with
         | some r4 =>
           (match eatDigits 2 r4 with
            | some r5 => isoFracTz r5
            | none => false)
         | none => isoTZOk r3)
      | none => false
    | none => false
  | none => false

/-- Modelled from the spec: "`published` (ISO-8601 string or absent)".
An ISO-8601 datetime string `YYYY-MM-DD[THH:MM[:SS[.ffffff]][tz]]`, the
format family produced by `datetime.isoformat()`.  This is the spec-side
definition used to compare the claim against the code's behaviour. -/
def isISO8601Spec (s : String) : Bool :=
  match eatDigits 4 s.data with
  | some r1 =>
    match eatChar '-' r1 with
    | some r2 =>
      match eatDigits 2 r2 with
      | some r3 =>
        match eatChar '-' r3 with
        | some r4 =>
          match eatDigits 2 r4 with
          | some r5 =>
            r5.isEmpty ||
            (match eatChar 'T' r5 with
             | some r6 => isoTimeOk r6
             | none => false)
          | none => false
        | none => false
      | none => false
    | none => false
  | none => false

/-- Bounds under which `datetime.isoformat()` emits two-digit (resp.
four/six-digit) zero-padded fields; every real `datetime` satisfies
them. -/
def WfPyDatetime (t : PyDatetime) : Prop :=
  t.year ≤ 9999 ∧ t.month ≤ 99 ∧ t.day ≤ 99 ∧ t.hour ≤ 99 ∧ t.minute ≤ 99 ∧
  t.second ≤ 99 ∧ t.microsecond ≤ 999999

/-- A page with no structured publish time but a `.published` element
whose text is a free-form date phrase. -/
def soupBadDate : SoupModel :=
  { select := fun _ => [],
    selectOne := fun sel =>
      if sel = ".published" then some (tagOfClean "Updated yesterday") else none,
    findAllP := [], findBlocks := [], findStrings := [], findTitleTag := none,
    publishTime := fun _ => none }

/-- A concrete publish datetime. -/
def dt0 : PyDatetime :=
  { year := 2025, month := 10, day := 12, hour := 8, minute := 30, second := 5,
    microsecond := 0 }

/-- A page whose publish-time extraction succeeds. -/
def soupWithTime : SoupModel :=
  { select := fun _ => [], selectOne := fun _ => none, findAllP := [],
    findBlocks := [], findStrings := [], findTitleTag := none,
    publishTime := fun _ => some dt0 }

/-- The merolagani container text used by the C3 counterexample: 250
Devanagari characters of article text. -/
def mlCexTextC3 : String := String.mk (List.replicate 250 'क')

/-- The container element of the C3 counterexample (non-sidebar
serialization). -/
def mlCexTagC3 : PyTag :=
  { toPyLeaf :=
      { truthy := true, elemStr := "<div class=\"news-detail\">",
        cleanText := mlCexTextC3, textSpaceSep := mlCexTextC3,
        textStrip := mlCexTextC3, textNl := "", datetimeAttr := none,
        contentAttr := none },
    select := fun _ => [], findAllP := [], descendants := [] }

/-- A merolagani page whose main article container holds 250 characters. -/
def soupC3 : SoupModel :=
  { select := fun sel => if sel = "div[class*=\"news-detail\"]" then [mlCexTagC3] else [],
    selectOne := fun _ => none, findAllP := [], findBlocks := [],
    findStrings := [], findTitleTag := none, publishTime := fun _ => none }

/-- A content element for the generic-strategy witness: 150 Devanagari
characters. -/
def genCexText : String := String.mk (List.replicate 150 'क')

def genTag : PyTag :=
  { toPyLeaf :=
      { truthy := true, elemStr := "", cleanText := genCexText,
        textSpaceSep := "", textStrip := "", textNl := "",
        datetimeAttr := none, contentAttr := none },
    select := fun _ => [], findAllP := [], descendants := [] }

/-- A generic page with one `.news-detail-content` candidate. -/
def soupGen : SoupModel :=
  { select := fun sel => if sel = ".news-detail-content" then [genTag] else [],
    selectOne := fun _ => none, findAllP := [], findBlocks := [],
    findStrings := [], findTitleTag := none, publishTime := fun _ => none }

/-- A substantial Nepali page title. -/
def npTitle : String := "नेपालको अर्थतन्त्र समाचार शीर्षक"

def titleTagNp : PyTag :=
  { toPyLeaf :=
      { truthy := true, elemStr := "", cleanText := npTitle,
        textSpaceSep := "", textStrip := "", textNl := "",
        datetimeAttr := none, contentAttr := none },
    select := fun _ => [], findAllP := [], descendants := [] }

/-- A generic page with no candidates but a Nepali `<title>`. -/
def soupTitleNp : SoupModel :=
  { select := fun _ => [], selectOne := fun _ => none, findAllP := [],
    findBlocks := [], findStrings := [], findTitleTag := some titleTagNp,
    publishTime := fun _ => none }

/-! ## C6: navigation rejection -/
/-- A merolagani main-article container whose text embeds a navigation
phrase followed by 200 Devanagari characters. -/
def navCexText : String :=
  "Home News Latest News Stock Market " ++ String.mk (List.replicate 200 'क')

def navCexTag : PyTag :=
  { toPyLeaf :=
      { truthy := true, elemStr := "<div class=\"news-detail\">",
        cleanText := navCexText, textSpaceSep := navCexText,
        textStrip := navCexText, textNl := "", datetimeAttr := none,
        contentAttr := none },
    select := fun _ => [], findAllP := [], descendants := [] }

/-- A merolagani page whose main container carries the nav phrase. -/
def soupC6 : SoupModel :=
  { select := fun sel => if sel = "div[class*=\"news-detail\"]" then [navCexTag] else [],
    selectOne := fun _ => none, findAllP := [], findBlocks := [],
    findStrings := [], findTitleTag := none, publishTime := fun _ => none }

/-! ## Theorems -/

theorem wsCollapse_idem (l : List Char) : ∀ b, wsCollapse (wsCollapse l b) b = wsCollapse l b := by
  induction l with
  | nil => intro b; simp [wsCollapse]
  | cons c rest ih =>
    intro b
    by_cases hc : isPyWs c
    · cases b with
      | true => simp [wsCollapse, hc, ih]
      | false =>
        simp only [wsCollapse, hc, if_true, ite_true]
        have hsp : isPyWs ' ' = true := by decide
        simp [wsCollapse, hsp, ih]
    · simp [wsCollapse, hc, ih]

/-! ## Correctness of the substring primitives -/
theorem leadsWith_iff (needle hay : List Char) :
    leadsWith needle hay = true ↔ ∃ t, hay = needle ++ t := by
  induction needle generalizing hay with
  | nil => simp [leadsWith]
  | cons a as ih =>
    cases hay with
    | nil => simp [leadsWith]
    | cons b bs =>
      simp only [leadsWith, Bool.and_eq_true, beq_iff_eq, ih, List.cons_append,
        List.cons.injEq]
      constructor
      · rintro ⟨rfl, t, rfl⟩; exact ⟨t, rfl, rfl⟩
      · rintro ⟨t, rfl, rfl⟩; exact ⟨rfl, t, rfl⟩

theorem occursInList_iff (needle hay : List Char) :
    occursInList needle hay = true ↔ ∃ p t, hay = p ++ needle ++ t := by
  induction hay with
  | nil =>
    simp only [occursInList, leadsWith_iff]
    constructor
    · rintro ⟨t, ht⟩
      exact ⟨[], t, by simpa using ht⟩
    · rintro ⟨p, t, ht⟩
      have := ht.symm
      rcases List.append_eq_nil.mp (List.append_eq_nil.mp this).1 with ⟨hp, hn⟩
      exact ⟨t, by simp [hn] at ht ⊢; simpa [hn, hp] using ht⟩
  | cons c rest ih =>
    simp only [occursInList, Bool.or_eq_true, leadsWith_iff, ih]
    constructor
    · rintro (⟨t, ht⟩ | ⟨p, t, ht⟩)
      · exact ⟨[], t, by simpa using ht⟩
      · exact ⟨c :: p, t, by simp [ht]⟩
    · rintro ⟨p, t, ht⟩
      cases p with
      | nil => exact Or.inl ⟨t, by simpa using ht⟩
      | cons q qs =>
        simp only [List.cons_append, List.cons.injEq] at ht
        exact Or.inr ⟨qs, t, ht.2⟩

theorem occursInList_trans {a b c : List Char}
    (hab : occursInList a b = true) (hbc : occursInList b c = true) :
    occursInList a c = true := by
  rcases (occursInList_iff a b).mp hab with ⟨p, t, rfl⟩
  rcases (occursInList_iff _ c).mp hbc with ⟨p', t', rfl⟩
  exact (occursInList_iff a _).mpr ⟨p' ++ p, t ++ t', by simp⟩

theorem trailsWith_iff (needle hay : List Char) :
    trailsWith needle hay = true ↔ ∃ p, hay = p ++ needle := by
  simp only [trailsWith, leadsWith_iff]
  constructor
  · rintro ⟨t, ht⟩
    refine ⟨t.reverse, ?_⟩
    have := congrArg List.reverse ht
    simpa using this
  · rintro ⟨p, rfl⟩
    exact ⟨p.reverse, by simp⟩

theorem occursInList_of_trailsWith {a b : List Char} (h : trailsWith a b = true) :
    occursInList a b = true := by
  rcases (trailsWith_iff a b).mp h with ⟨p, rfl⟩
  exact (occursInList_iff a _).mpr ⟨p, [], by simp⟩

theorem breakAtSub_eq {pat l pre post : List Char}
    (h : breakAtSub pat l = some (pre, post)) : l = pre ++ pat ++ post := by
  induction l generalizing pre post with
  | nil =>
    simp only [breakAtSub] at h
    split at h
    · rename_i hl
      rcases (leadsWith_iff pat []).mp hl with ⟨t, ht⟩
      rcases List.append_eq_nil.mp ht.symm with ⟨h1, h2⟩
      simp only [Option.some.injEq, Prod.mk.injEq] at h
      simp [← h.1, ← h.2, h1]
    · exact absurd h (by simp)
  | cons c rest ih =>
    simp only [breakAtSub] at h
    split at h
    · rename_i hl
      rcases (leadsWith_iff pat (c :: rest)).mp hl with ⟨t, ht⟩
      simp only [Option.some.injEq, Prod.mk.injEq] at h
      rw [← h.1, ← h.2, List.nil_append, ht, List.drop_left]
    · rename_i hl
      cases hb : breakAtSub pat rest with
      | none => rw [hb] at h; exact absurd h (by simp)
      | some pp =>
        rw [hb] at h
        obtain ⟨pre', post'⟩ := pp
        simp only [Option.some.injEq, Prod.mk.injEq] at h
        have := @ih pre' post' (by rw [hb])
        rw [← h.1, ← h.2]
        simp [this]

/-- The host is a contiguous substring of the URL. -/
theorem urlHost_occursIn (url : String) :
    occursInList (urlHost url).data url.data = true := by
  unfold urlHost
  cases hb : breakAtSub "://".data url.data with
  | none =>
    simp only [Option.some.injEq]
    exact (occursInList_iff _ _).mpr ⟨[], url.data, by simp⟩
  | some pp =>
    obtain ⟨pre, post⟩ := pp
    have hu : url.data = pre ++ "://".data ++ post := breakAtSub_eq hb
    refine (occursInList_iff _ _).mpr ?_
    refine ⟨pre ++ "://".data,
      post.dropWhile (fun c => !(c == '/' || c == '?' || c == '#')), ?_⟩
    rw [hu]
    simp [List.takeWhile_append_dropWhile]

theorem splitOnChar_ne_nil (sep : Char) (l : List Char) : splitOnChar sep l ≠ [] := by
  cases l with
  | nil => simp [splitOnChar]
  | cons c rest =>
    simp only [splitOnChar]
    by_cases hc : c = sep
    · simp [hc]
    · simp only [hc, if_false]
      cases splitOnChar sep rest <;> simp

/-! ## Status-gate lemmas -/
/-- The success gate of `parse_html_content`, restated on the produced
record: status is `"success"` exactly when the stripped body exceeds 200
characters and the body contains a Devanagari character (Python-truthiness
of the body is subsumed: a body with stripped length over 200 is
nonempty). -/
theorem parse_status_iff (po : ParseOutcome) (url : String) (m : Nat) :
    ((parse_html_content po url m).parser_status = "success") ↔
      (200 < (pyStrip (parse_html_content po url m).body_text).length ∧
        containsDevanagari (parse_html_content po url m).body_text = true) := by
  cases po with
  | crash =>
    simp only [parse_html_content]
    constructor
    · intro h; exact absurd h (by decide)
    · rintro ⟨h, -⟩
      have : (pyStrip "").length = 0 := by decide
      omega
  | soup s =>
    simp only [parse_html_content]
    by_cases hbe : extract_body_text s url m = ""
    · rw [hbe]
      have h0 : (pyStrip "").length = 0 := by decide
      constructor
      · intro h
        simp only [ne_eq, not_true_eq_false, false_and, if_false] at h
        exact absurd h (by decide)
      · rintro ⟨h, -⟩
        omega
    · simp only [ne_eq, hbe, not_false_eq_true, if_true, true_and,
        decide_eq_true_eq]
      split
      · rename_i hc; exact iff_of_true rfl hc
      · rename_i hc
        constructor
        · intro h; exact absurd h (by decide)
        · intro h; exact absurd h hc

/-- The success gate survives the browser-rendering wrapper: the final
record's status is `"success"` exactly when its body text passes the gate
(a failed parse is downgraded to `fallback_failed` while keeping its body,
and the error/unavailable records carry empty bodies). -/
theorem updateMethod_parser_status (r : Record) (v : Option String) :
    ({ r with parser_method := v } : Record).parser_status = r.parser_status := rfl

theorem updateMethod_body_text (r : Record) (v : Option String) :
    ({ r with parser_method := v } : Record).body_text = r.body_text := rfl

theorem updateStatus_parser_status (r : Record) (v : String) :
    ({ r with parser_status := v } : Record).parser_status = v := rfl

theorem updateStatus_body_text (r : Record) (v : String) :
    ({ r with parser_status := v } : Record).body_text = r.body_text := rfl

theorem browser_status_iff (env : Env) (url : String) (m : Nat) :
    ((extract_with_browser_rendering env url m).parser_status = "success") ↔
      (200 < (pyStrip (extract_with_browser_rendering env url m).body_text).length ∧
        containsDevanagari (extract_with_browser_rendering env url m).body_text = true) := by
  unfold extract_with_browser_rendering
  have h0 : (pyStrip "").length = 0 := by decide
  by_cases hp : env.playwrightAvailable = true
  · rw [if_pos hp]
    cases hr : env.render url with
    | ok po =>
      dsimp only
      have hiff := parse_status_iff po url m
      by_cases hs : (parse_html_content po url m).parser_status = "success"
      · rw [if_pos hs]
        exact hiff
      · rw [if_neg hs]
        dsimp only
        constructor
        · intro h; exact absurd h (by decide)
        · intro h; exact absurd (hiff.mpr h) hs
    | error e =>
      dsimp only
      constructor
      · intro h; exact absurd h (by decide)
      · rintro ⟨h, -⟩; omega
  · rw [if_neg hp]
    dsimp only
    constructor
    · intro h; exact absurd h (by decide)
    · rintro ⟨h, -⟩; omega

/-! ## Claim theorems -/
/-- **C9.**  Applying the whitespace normalizer of
`clean_article_content` (collapse every run of whitespace to a single
space) twice yields the same result as applying it once, for all input
strings. -/
theorem claim_C9_whitespace_normalizer_idempotent (s : String) :
    collapseWhitespace (collapseWhitespace s) = collapseWhitespace s := by
  unfold collapseWhitespace
  exact congrArg String.mk (wsCollapse_idem s.data false)

/-- **C1.**  For every record produced by `extract_article_content`
(standard path or browser-rendering path), `parser_status = "success"`
holds if and only if the stripped body text is longer than 200 characters
and the body text contains at least one character in the Devanagari range
U+0900–U+097F. -/
theorem claim_C1_success_iff_content_gate (env : Env) (url : String) (m : Nat) :
    ((extract_article_content env url m).parser_status = "success") ↔
      (200 < (pyStrip (extract_article_content env url m).body_text).length ∧
        containsDevanagari (extract_article_content env url m).body_text = true) := by
  unfold extract_article_content
  dsimp only
  by_cases hjs : (JS_HEAVY_DOMAINS.any fun domain => occursStr domain url) = true
  · rw [if_pos hjs]
    exact browser_status_iff env url m
  · rw [if_neg hjs]
    cases hd : env.download url with
    | ok po =>
      dsimp only
      by_cases hs : (parse_html_content po url m).parser_status = "success"
      · rw [if_pos hs]
        dsimp only
        exact parse_status_iff po url m
      · rw [if_neg hs]
        exact browser_status_iff env url m
    | error e =>
      dsimp only
      exact browser_status_iff env url m

/-- `parse_html_content` echoes the URL into the record. -/
theorem parse_url_eq (po : ParseOutcome) (url : String) (m : Nat) :
    (parse_html_content po url m).url = url := by
  cases po <;> rfl

/-- The browser path always stamps `parser_method = "browser_fallback"`. -/
theorem browser_method_eq (env : Env) (url : String) (m : Nat) :
    (extract_with_browser_rendering env url m).parser_method = some "browser_fallback" := by
  unfold extract_with_browser_rendering
  by_cases hp : env.playwrightAvailable = true
  · rw [if_pos hp]
    cases hr : env.render url with
    | ok po =>
      dsimp only
      by_cases hs : (parse_html_content po url m).parser_status = "success"
      · rw [if_pos hs]
      · rw [if_neg hs]
    | error e => rfl
  · rw [if_neg hp]

/-- The browser path returns one of the four terminal statuses and echoes
the URL. -/
theorem browser_record_cases (env : Env) (url : String) (m : Nat) :
    ((extract_with_browser_rendering env url m).parser_status = "success" ∨
      (extract_with_browser_rendering env url m).parser_status = "fallback_failed" ∨
      (extract_with_browser_rendering env url m).parser_status = "fallback_error" ∨
      (extract_with_browser_rendering env url m).parser_status = "fallback_unavailable") ∧
    (extract_with_browser_rendering env url m).url = url := by
  unfold extract_with_browser_rendering
  by_cases hp : env.playwrightAvailable = true
  · rw [if_pos hp]
    cases hr : env.render url with
    | ok po =>
      dsimp only
      by_cases hs : (parse_html_content po url m).parser_status = "success"
      · rw [if_pos hs]
        exact ⟨Or.inl hs, parse_url_eq po url m⟩
      · rw [if_neg hs]
        exact ⟨Or.inr (Or.inl rfl), parse_url_eq po url m⟩
    | error e => exact ⟨Or.inr (Or.inr (Or.inl rfl)), rfl⟩
  · rw [if_neg hp]
    exact ⟨Or.inr (Or.inr (Or.inr rfl)), rfl⟩

/-- **C2.**  `extract_article_content` is a total function of its effect
environment (every exception path of the source is caught), always
returning a structured record: the final status is one of the four
terminal codes and the record echoes the URL; a transport or parse
exception on the standard path falls through to browser rendering; a
browser-render result failing validation carries
`parser_status = "fallback_failed"`; an exception from the render itself
carries `parser_status = "fallback_error"` with the message preserved in
`fallback_error`; and absence of Playwright carries
`parser_status = "fallback_unavailable"`. -/
theorem claim_C2_error_taxonomy (env : Env) (url : String) (m : Nat) :
    ((extract_article_content env url m).parser_status = "success" ∨
      (extract_article_content env url m).parser_status = "fallback_failed" ∨
      (extract_article_content env url m).parser_status = "fallback_error" ∨
      (extract_article_content env url m).parser_status = "fallback_unavailable") ∧
    (extract_article_content env url m).url = url ∧
    ((JS_HEAVY_DOMAINS.any fun domain => occursStr domain url) = false →
      ∀ e, env.download url = .error e →
        extract_article_content env url m = extract_with_browser_rendering env url m) ∧
    (env.playwrightAvailable = true →
      ∀ po, env.render url = .ok po →
        (parse_html_content po url m).parser_status ≠ "success" →
        (extract_with_browser_rendering env url m).parser_status = "fallback_failed") ∧
    (env.playwrightAvailable = true →
      ∀ e, env.render url = .error e →
        (extract_with_browser_rendering env url m).parser_status = "fallback_error" ∧
        (extract_with_browser_rendering env url m).fallback_error = some e) ∧
    (env.playwrightAvailable = false →
      (extract_with_browser_rendering env url m).parser_status = "fallback_unavailable") := by
  refine ⟨?_, ?_, ?_, ?_, ?_, ?_⟩
  · unfold extract_article_content
    dsimp only
    by_cases hjs : (JS_HEAVY_DOMAINS.any fun domain => occursStr domain url) = true
    · rw [if_pos hjs]; exact (browser_record_cases env url m).1
    · rw [if_neg hjs]
      cases hd : env.download url with
      | ok po =>
        dsimp only
        by_cases hs : (parse_html_content po url m).parser_status = "success"
        · rw [if_pos hs]; exact Or.inl hs
        · rw [if_neg hs]; exact (browser_record_cases env url m).1
      | error e => exact (browser_record_cases env url m).1
  · unfold extract_article_content
    dsimp only
    by_cases hjs : (JS_HEAVY_DOMAINS.any fun domain => occursStr domain url) = true
    · rw [if_pos hjs]; exact (browser_record_cases env url m).2
    · rw [if_neg hjs]
      cases hd : env.download url with
      | ok po =>
        dsimp only
        by_cases hs : (parse_html_content po url m).parser_status = "success"
        · rw [if_pos hs]; exact parse_url_eq po url m
        · rw [if_neg hs]; exact (browser_record_cases env url m).2
      | error e => exact (browser_record_cases env url m).2
  · intro hjs e hd
    unfold extract_article_content
    dsimp only
    rw [if_neg (by rw [hjs]; exact Bool.false_ne_true), hd]
  · intro hp po hr hs
    unfold extract_with_browser_rendering
    rw [if_pos hp, hr]
    dsimp only
    rw [if_neg hs]
  · intro hp e hr
    unfold extract_with_browser_rendering
    rw [if_pos hp, hr]
    exact ⟨rfl, rfl⟩
  · intro hp
    unfold extract_with_browser_rendering
    rw [if_neg (by rw [hp]; exact Bool.false_ne_true)]

theorem claim_C2_witness :
    (extract_article_content envDownloadErr "https://example.com/a" 5000 =
      extract_with_browser_rendering envDownloadErr "https://example.com/a" 5000) ∧
    (extract_with_browser_rendering envEmptyPage "https://example.com/a" 5000).parser_status =
      "fallback_failed" ∧
    (extract_with_browser_rendering envRenderBoom "https://example.com/a" 5000).parser_status =
      "fallback_error" ∧
    (extract_with_browser_rendering envRenderBoom "https://example.com/a" 5000).fallback_error =
      some "boom" ∧
    (extract_with_browser_rendering envNoPlaywright "https://example.com/a" 5000).parser_status =
      "fallback_unavailable" := by
  have h1 := claim_C2_error_taxonomy envDownloadErr "https://example.com/a" 5000
  have h2 := claim_C2_error_taxonomy envEmptyPage "https://example.com/a" 5000
  have h3 := claim_C2_error_taxonomy envRenderBoom "https://example.com/a" 5000
  have h4 := claim_C2_error_taxonomy envNoPlaywright "https://example.com/a" 5000
  refine ⟨h1.2.2.1 (by decide) "timeout" rfl, ?_, ?_, ?_, h4.2.2.2.2.2 rfl⟩
  · exact h2.2.2.2.1 rfl (.soup soupEmpty) rfl (by decide)
  · exact (h3.2.2.2.2.1 rfl "boom" rfl).1
  · exact (h3.2.2.2.2.1 rfl "boom" rfl).2

/-! ## Domain routing -/
theorem strData_append (a b : String) : (a ++ b).data = a.data ++ b.data := rfl

/-- Shared routing lemma: when the code's substring check fires, the
orchestrator goes straight to browser rendering — the result equals the
browser path's, carries `parser_method = "browser_fallback"` (never
`"standard"`), performs no standard fetch, and does not depend on the
download oracle at all. -/
theorem js_route_of_any (env : Env) (url : String) (m : Nat)
    (hjs : (JS_HEAVY_DOMAINS.any fun domain => occursStr domain url) = true) :
    extract_article_content env url m = extract_with_browser_rendering env url m ∧
    (extract_article_content env url m).parser_method = some "browser_fallback" ∧
    (extract_article_content env url m).parser_method ≠ some "standard" ∧
    standardFetchCount env url = 0 ∧
    (∀ dl, extract_article_content { env with download := dl } url m =
      extract_article_content env url m) := by
  have heq : extract_article_content env url m = extract_with_browser_rendering env url m := by
    unfold extract_article_content; dsimp only; rw [if_pos hjs]
  have hm : (extract_article_content env url m).parser_method = some "browser_fallback" := by
    rw [heq]; exact browser_method_eq env url m
  refine ⟨heq, hm, ?_, ?_, ?_⟩
  · rw [hm]; decide
  · unfold standardFetchCount; rw [if_pos hjs]
  · intro dl
    have heq2 : extract_article_content { env with download := dl } url m =
        extract_with_browser_rendering { env with download := dl } url m := by
      unfold extract_article_content; dsimp only; rw [if_pos hjs]
    rw [heq2, heq]
    rfl

/-- **C4.**  For every URL whose domain (URL host) is in the JS-heavy
allow-list, `extract_article_content` invokes browser rendering directly:
the result is that of the browser path, no standard fetch occurs (the
result is independent of the download oracle), and the returned
`parser_method` is `"browser_fallback"`, never `"standard"`. -/
theorem claim_C4_domain_routing (env : Env) (url : String) (m : Nat) (d : String)
    (hd : d ∈ JS_HEAVY_DOMAINS)
    (hhost : urlHost url = d ∨ trailsWith ("." ++ d).data (urlHost url).data = true) :
    extract_article_content env url m = extract_with_browser_rendering env url m ∧
    (extract_article_content env url m).parser_method = some "browser_fallback" ∧
    (extract_article_content env url m).parser_method ≠ some "standard" ∧
    standardFetchCount env url = 0 ∧
    (∀ dl, extract_article_content { env with download := dl } url m =
      extract_article_content env url m) := by
  have hocc : occursStr d url = true := by
    show occursInList d.data url.data = true
    rcases hhost with h | h
    · have hu := urlHost_occursIn url
      rwa [h] at hu
    · have h1 : occursInList ("." ++ d).data (urlHost url).data = true :=
        occursInList_of_trailsWith h
      have h2 : occursInList d.data ("." ++ d).data = true := by
        refine (occursInList_iff _ _).mpr ⟨['.'], [], ?_⟩
        rw [strData_append]
        simp
      exact occursInList_trans (occursInList_trans h2 h1) (urlHost_occursIn url)
  exact js_route_of_any env url m (List.any_eq_true.mpr ⟨d, hd, hocc⟩)

theorem claim_C4_witness :
    (extract_article_content envEmptyPage "https://www.merolagani.com/NewsDetail.aspx?newsID=1"
      5000).parser_method = some "browser_fallback" ∧
    standardFetchCount envEmptyPage "https://www.merolagani.com/NewsDetail.aspx?newsID=1" = 0 := by
  have h := claim_C4_domain_routing envEmptyPage
    "https://www.merolagani.com/NewsDetail.aspx?newsID=1" 5000 "merolagani.com"
    (by decide) (Or.inr (by decide))
  exact ⟨h.2.1, h.2.2.2.1⟩

/-- **C10.**  The JS-heavy routing check is a plain substring match over
the entire URL string: whenever any allow-list entry occurs anywhere in
the URL (host, path or query), the orchestrator goes straight to browser
rendering — the result equals the browser path's, no standard fetch
occurs, the result is independent of the download oracle, and
`parser_method` is `"browser_fallback"` — regardless of the URL's actual
host. -/
theorem claim_C10_substring_routing (env : Env) (url : String) (m : Nat)
    (hany : (JS_HEAVY_DOMAINS.any fun domain => occursStr domain url) = true) :
    extract_article_content env url m = extract_with_browser_rendering env url m ∧
    (extract_article_content env url m).parser_method = some "browser_fallback" ∧
    (extract_article_content env url m).parser_method ≠ some "standard" ∧
    standardFetchCount env url = 0 ∧
    (∀ dl, extract_article_content { env with download := dl } url m =
      extract_article_content env url m) :=
  js_route_of_any env url m hany

theorem claim_C10_witness :
    (extract_article_content envEmptyPage "https://example.org/article?ref=merolagani.com"
      5000).parser_method = some "browser_fallback" ∧
    standardFetchCount envEmptyPage "https://example.org/article?ref=merolagani.com" = 0 ∧
    (JS_HEAVY_DOMAINS.any fun domain =>
      occursStr domain (urlHost "https://example.org/article?ref=merolagani.com")) = false := by
  have h := claim_C10_substring_routing envEmptyPage
    "https://example.org/article?ref=merolagani.com" 5000 (by decide)
  exact ⟨h.2.1, h.2.2.2.1, by decide⟩

/-- **C5.**  For every URL not matched by the JS-heavy allow-list check,
if the standard path fails — the parse result has a status other than
`"success"`, or the fetch/parse raises (there is then no `po` with
`download url = ok po`) — then `extract_article_content` runs the browser
path exactly once and returns its record, whose `parser_method` is
`"browser_fallback"`. -/
theorem claim_C5_fallback_on_standard_failure (env : Env) (url : String) (m : Nat)
    (hjs : (JS_HEAVY_DOMAINS.any fun domain => occursStr domain url) = false)
    (hfail : ∀ po, env.download url = .ok po →
      (parse_html_content po url m).parser_status ≠ "success") :
    extract_article_content env url m = extract_with_browser_rendering env url m ∧
    browserAttemptCount env url m = 1 ∧
    (extract_article_content env url m).parser_method = some "browser_fallback" := by
  have hjs' : ¬ (JS_HEAVY_DOMAINS.any fun domain => occursStr domain url) = true := by
    rw [hjs]; exact Bool.false_ne_true
  have heq : extract_article_content env url m = extract_with_browser_rendering env url m := by
    unfold extract_article_content
    dsimp only
    rw [if_neg hjs']
    cases hd : env.download url with
    | ok po =>
      dsimp only
      rw [if_neg (hfail po hd)]
    | error e => rfl
  refine ⟨heq, ?_, by rw [heq]; exact browser_method_eq env url m⟩
  unfold browserAttemptCount
  rw [if_neg hjs']
  cases hd : env.download url with
  | ok po => dsimp only; rw [if_neg (hfail po hd)]
  | error e => rfl

theorem claim_C5_witness :
    (extract_article_content envDownloadErr "https://example.com/a" 5000 =
      extract_with_browser_rendering envDownloadErr "https://example.com/a" 5000) ∧
    browserAttemptCount envDownloadErr "https://example.com/a" 5000 = 1 ∧
    (extract_article_content envEmptyPage "https://example.com/a" 5000).parser_method =
      some "browser_fallback" := by
  have h1 := claim_C5_fallback_on_standard_failure envDownloadErr "https://example.com/a" 5000
    (by decide) (by intro po hpo; exact absurd hpo (by simp [envDownloadErr]))
  have h2 := claim_C5_fallback_on_standard_failure envEmptyPage "https://example.com/a" 5000
    (by decide) (by
      intro po hpo
      have : po = ParseOutcome.soup soupEmpty := by
        simpa [envEmptyPage] using hpo.symm
      rw [this]
      decide)
  exact ⟨h1.1, h1.2.1, h2.2.2⟩

/-! ## C7: title extraction -/
/-- A successful selector hit satisfies the nonempty/length gate. -/
theorem titleLoop_some {soup : SoupModel} {sels : List String} {t : String}
    (h : titleLoop soup sels = some t) : t ≠ "" ∧ 5 < t.length := by
  induction sels with
  | nil => simp [titleLoop] at h
  | cons sel rest ih =>
    simp only [titleLoop] at h
    cases hso : soup.selectOne sel with
    | none => rw [hso] at h; exact ih h
    | some e =>
      rw [hso] at h
      dsimp only at h
      by_cases ht : e.truthy = true
      · rw [if_pos ht] at h
        by_cases hc : e.cleanText ≠ "" ∧ e.cleanText.length > 5
        · rw [if_pos hc] at h
          obtain rfl := Option.some.inj h
          exact hc
        · rw [if_neg hc] at h; exact ih h
      · rw [if_neg ht] at h; exact ih h

/-- **C7 (counterexample).**  With no selector hit and a URL whose path is
empty, `extract_title` returns the empty string — not a non-empty string
and not the literal `"Unknown Title"` — because Python
`''.split('/') == ['']` makes the URL fallback return an empty title. -/
theorem claim_C7_counterexample :
    extract_title soupNoTitle "https://example.com" = "" ∧
    extract_title soupNoTitle "https://example.com" ≠ "Unknown Title" := by
  constructor
  · decide
  · decide

/-- **C7 (amended).**  The first selector result that is nonempty and
longer than 5 characters wins; otherwise the title is derived from the
URL's last path segment (hyphens/underscores to spaces, title-cased),
which is empty when the URL path is empty, so the extracted title can be
empty; the literal `"Unknown Title"` is returned only if URL parsing
raises, which cannot happen in the total model. -/
theorem claim_C7_amended_title (soup : SoupModel) (url : String) :
    (∀ t, titleLoop soup TITLE_SELECTORS = some t →
      extract_title soup url = t ∧ t ≠ "" ∧ 5 < t.length) ∧
    (titleLoop soup TITLE_SELECTORS = none →
      extract_title soup url = urlDerivedTitle url) := by
  constructor
  · intro t ht
    unfold extract_title
    rw [ht]
    exact ⟨rfl, titleLoop_some ht⟩
  · intro hn
    unfold extract_title
    rw [hn]
    dsimp only
    rw [if_pos (splitOnChar_ne_nil _ _)]
    rfl

theorem claim_C7_amended_title_witness :
    extract_title soupWithTitle "https://example.com/x" = "Breaking News" ∧
    extract_title soupNoTitle "https://example.com/some-news_item" = "Some News Item" := by
  constructor
  · exact ((claim_C7_amended_title soupWithTitle "https://example.com/x").1
      "Breaking News" (by decide)).1
  · rw [(claim_C7_amended_title soupNoTitle "https://example.com/some-news_item").2 (by decide)]
    decide

theorem digitChar_isDigit (x : Nat) : isDigitChar (digitChar x) = true := by
  have h : ∀ r, r < 10 → isDigitChar (Char.ofNat (48 + r)) = true := by decide
  exact h (x % 10) (Nat.mod_lt _ (by decide))

theorem natToDecAux_digits :
    ∀ fuel n acc, (∀ c ∈ acc, isDigitChar c = true) →
      ∀ c ∈ natToDecAux fuel n acc, isDigitChar c = true := by
  intro fuel
  induction fuel with
  | zero => intro n acc hacc c hc; simpa [natToDecAux] using hacc c hc
  | succ fuel ih =>
    intro n acc hacc c hc
    match n with
    | 0 => simpa [natToDecAux] using hacc c hc
    | m + 1 =>
      rw [natToDecAux] at hc
      refine ih ((m + 1) / 10) _ ?_ c hc
      intro x hx
      rcases List.mem_cons.mp hx with h | h
      · rw [h]; exact digitChar_isDigit _
      · exact hacc x h

theorem natToDecAux_length :
    ∀ fuel n acc k, n < 10 ^ k →
      (natToDecAux fuel n acc).length ≤ k + acc.length := by
  intro fuel
  induction fuel with
  | zero => intro n acc k _; simp [natToDecAux]
  | succ fuel ih =>
    intro n acc k hn
    match n with
    | 0 => simp [natToDecAux]
    | m + 1 =>
      rw [natToDecAux]
      match k with
      | 0 => simp at hn
      | k + 1 =>
        have hdiv : (m + 1) / 10 < 10 ^ k := by
          rw [Nat.div_lt_iff_lt_mul (by decide : 0 < 10)]
          calc m + 1 < 10 ^ (k + 1) := hn
            _ = 10 ^ k * 10 := by rw [Nat.pow_succ]
        have := ih ((m + 1) / 10) (digitChar ((m + 1) % 10) :: acc) k hdiv
        simp only [List.length_cons] at this
        omega

theorem natToDecList_digits (n : Nat) : ∀ c ∈ natToDecList n, isDigitChar c = true := by
  unfold natToDecList
  by_cases h : n = 0
  · rw [if_pos h]; intro c hc; simp at hc; rw [hc]; decide
  · rw [if_neg h]; exact natToDecAux_digits n n [] (by simp)

theorem natToDecList_length_le {k n : Nat} (hk : 1 ≤ k) (h : n < 10 ^ k) :
    (natToDecList n).length ≤ k := by
  unfold natToDecList
  by_cases h0 : n = 0
  · rw [if_pos h0]; simpa using hk
  · rw [if_neg h0]
    have := natToDecAux_length n n [] k h
    simpa using this

theorem padNat_length {w n : Nat} (h : (natToDecList n).length ≤ w) :
    (padNat w n).length = w := by
  unfold padNat padZeros
  simp only [List.length_append, List.length_replicate]
  omega

theorem padNat_digits (w n : Nat) : ∀ c ∈ padNat w n, isDigitChar c = true := by
  unfold padNat padZeros
  intro c hc
  rcases List.mem_append.mp hc with h | h
  · rw [List.eq_of_mem_replicate h]; decide
  · exact natToDecList_digits n c h

theorem eatDigits_append :
    ∀ (l : List Char) (k : Nat) (r : List Char), l.length = k →
      (∀ c ∈ l, isDigitChar c = true) → eatDigits k (l ++ r) = some r := by
  intro l
  induction l with
  | nil => intro k r hlen _; subst hlen; simp [eatDigits]
  | cons c cs ih =>
    intro k r hlen hdig
    subst hlen
    simp only [List.length_cons, List.cons_append, eatDigits]
    rw [if_pos (hdig c (by simp))]
    exact ih cs.length r rfl (fun x hx => hdig x (by simp [hx]))

theorem eatDigits_padNat {w n : Nat} (hw : 1 ≤ w) (h : n < 10 ^ w) (r : List Char) :
    eatDigits w (padNat w n ++ r) = some r :=
  eatDigits_append _ _ _ (padNat_length (natToDecList_length_le hw h)) (padNat_digits _ _)

/-- `datetime.isoformat()` output always satisfies the spec's ISO-8601
format (under the real `datetime` field bounds). -/
theorem iso_of_isoformat (t : PyDatetime) (h : WfPyDatetime t) :
    isISO8601Spec (isoformatDT t) = true := by
  obtain ⟨hy, hmo, hd, hh, hmi, hs, hmic⟩ := h
  have hy4 : t.year < 10 ^ 4 := by
    have h10 : (10:Nat) ^ 4 = 10000 := by norm_num
    omega
  have h2 : ∀ x : Nat, x ≤ 99 → x < 10 ^ 2 := by
    intro x hx
    have h10 : (10:Nat) ^ 2 = 100 := by norm_num
    omega
  have h6 : t.microsecond < 10 ^ 6 := by
    have h10 : (10:Nat) ^ 6 = 1000000 := by norm_num
    omega
  have e4 : ∀ r, eatDigits 4 (padNat 4 t.year ++ r) = some r :=
    fun r => eatDigits_padNat (by omega) hy4 r
  have emo : ∀ r, eatDigits 2 (padNat 2 t.month ++ r) = some r :=
    fun r => eatDigits_padNat (by omega) (h2 _ hmo) r
  have ed : ∀ r, eatDigits 2 (padNat 2 t.day ++ r) = some r :=
    fun r => eatDigits_padNat (by omega) (h2 _ hd) r
  have eh : ∀ r, eatDigits 2 (padNat 2 t.hour ++ r) = some r :=
    fun r => eatDigits_padNat (by omega) (h2 _ hh) r
  have emi : ∀ r, eatDigits 2 (padNat 2 t.minute ++ r) = some r :=
    fun r => eatDigits_padNat (by omega) (h2 _ hmi) r
  have es : ∀ r, eatDigits 2 (padNat 2 t.second ++ r) = some r :=
    fun r => eatDigits_padNat (by omega) (h2 _ hs) r
  unfold isISO8601Spec isoformatDT
  dsimp only
  simp only [List.cons_append, List.append_assoc]
  rw [e4]
  dsimp only [eatChar]
  rw [if_pos (show (('-' : Char) == '-') = true from rfl)]
  dsimp only
  rw [emo]
  dsimp only [eatChar]
  rw [if_pos (show (('-' : Char) == '-') = true from rfl)]
  dsimp only
  rw [ed]
  dsimp only [eatChar, List.isEmpty]
  rw [if_pos (show (('T' : Char) == 'T') = true from rfl)]
  dsimp only
  unfold isoTimeOk
  rw [eh]
  dsimp only [eatChar]
  rw [if_pos (show ((':' : Char) == ':') = true from rfl)]
  dsimp only
  rw [emi]
  dsimp only [eatChar]
  rw [if_pos (show ((':' : Char) == ':') = true from rfl)]
  dsimp only
  rw [es]
  dsimp only
  by_cases hmz : t.microsecond = 0
  · rw [if_pos hmz]
    rfl
  · rw [if_neg hmz]
    have hdig : ∀ x ∈ padNat 6 t.microsecond, isDigitChar x = true := padNat_digits 6 _
    have hne : (padNat 6 t.microsecond).length = 6 :=
      padNat_length (natToDecList_length_le (by omega) h6)
    cases hp : padNat 6 t.microsecond with
    | nil => rw [hp] at hne; simp at hne
    | cons c cs =>
      rw [hp] at hdig
      have hcdig : isDigitChar c = true := hdig c (by simp)
      have hdw : (c :: cs).dropWhile isDigitChar = [] := by
        rw [List.dropWhile_eq_nil_iff]
        exact hdig
      unfold isoFracTz
      dsimp only [eatChar]
      rw [if_pos (show (('.' : Char) == '.') = true from rfl)]
      dsimp only
      rw [hcdig, hdw]
      rfl

/-- **C8 (counterexample).**  When `extract_publish_time` finds nothing
and a date selector matches an element with free-form text, the
`published` field is that raw text — `"Updated yesterday"` — which is not
an ISO-8601 string. -/
theorem claim_C8_counterexample :
    (parse_html_content (.soup soupBadDate) "https://example.com/a" 5000).published =
      some "Updated yesterday" ∧
    isISO8601Spec "Updated yesterday" = false := by
  constructor
  · decide
  · decide

/-- **C8 (amended).**  The `published` field is absent, or the
`isoformat()` of the extracted publish datetime (which is ISO-8601), or —
when no datetime was extracted — the raw `datetime`/`content` attribute or
element text of the first matching date selector, which need not be
ISO-8601. -/
theorem claim_C8_amended_published (s : SoupModel) (url : String) (m : Nat) :
    (∀ t, s.publishTime url = some t →
      (parse_html_content (.soup s) url m).published = some (isoformatDT t) ∧
      (WfPyDatetime t → isISO8601Spec (isoformatDT t) = true)) ∧
    (s.publishTime url = none →
      (parse_html_content (.soup s) url m).published = extract_published_date s) := by
  constructor
  · intro t ht
    constructor
    · unfold parse_html_content
      dsimp only
      rw [ht]
    · exact fun hw => iso_of_isoformat t hw
  · intro hn
    unfold parse_html_content
    dsimp only
    rw [hn]

theorem claim_C8_amended_published_witness :
    (parse_html_content (.soup soupWithTime) "https://example.com/a" 5000).published =
      some "2025-10-12T08:30:05" ∧
    isISO8601Spec "2025-10-12T08:30:05" = true ∧
    (parse_html_content (.soup soupBadDate) "https://example.com/a" 5000).published =
      extract_published_date soupBadDate := by
  have h1 := claim_C8_amended_published soupWithTime "https://example.com/a" 5000
  have h2 := claim_C8_amended_published soupBadDate "https://example.com/a" 5000
  refine ⟨?_, ?_, h2.2 rfl⟩
  · rw [(h1.1 dt0 rfl).1]
    decide
  · have := (h1.1 dt0 rfl).2 (by refine ⟨?_, ?_, ?_, ?_, ?_, ?_, ?_⟩ <;> decide)
    have heq : isoformatDT dt0 = "2025-10-12T08:30:05" := by decide
    rwa [heq] at this

/-! ## C3: truncation -/
theorem pySliceTo_length_le (s : String) (n : Nat) : (pySliceTo s n).length ≤ n := by
  show (s.data.take n).length ≤ n
  simp [List.length_take]

/-- Every branch of the merolagani strategy ends in a plain slice, so its
output never exceeds `max_length` — and in particular never gains a
three-character ellipsis beyond it. -/
theorem ml_length_le (soup : SoupModel) (m : Nat) :
    (extract_merolagani_content_full soup m).length ≤ m := by
  unfold extract_merolagani_content_full
  dsimp only
  by_cases h1 : extract_merolagani_main_article soup ≠ "" ∧
      (extract_merolagani_main_article soup).length > 100
  · rw [if_pos h1]; exact pySliceTo_length_le _ _
  · rw [if_neg h1]
    cases hcd : pyOrTag (soup.selectOne "div[class*=\"content\"]") (soup.selectOne ".content") with
    | none => dsimp only; exact pySliceTo_length_le _ _
    | some cd =>
      dsimp only
      by_cases ht : cd.truthy = true
      · rw [if_pos ht]
        by_cases h2 : extract_merolagani_content cd ≠ "" ∧
            (extract_merolagani_content cd).length > 100
        · rw [if_pos h2]; dsimp only; exact pySliceTo_length_le _ _
        · rw [if_neg h2]; dsimp only; exact pySliceTo_length_le _ _
      · rw [if_neg ht]; dsimp only; exact pySliceTo_length_le _ _

/-- Same bound for the bikashnews strategy. -/
theorem bk_length_le (soup : SoupModel) (m : Nat) :
    (extract_bikashnews_content_full soup m).length ≤ m := by
  unfold extract_bikashnews_content_full
  dsimp only
  by_cases h1 : extract_bikashnews_main_article soup ≠ "" ∧
      (extract_bikashnews_main_article soup).length > 100
  · rw [if_pos h1]; exact pySliceTo_length_le _ _
  · rw [if_neg h1]
    cases hcd : pyOrTag (soup.selectOne "div[class*=\"content\"]") (soup.selectOne ".content") with
    | none => dsimp only; exact pySliceTo_length_le _ _
    | some cd =>
      dsimp only
      by_cases ht : cd.truthy = true
      · rw [if_pos ht]
        by_cases h2 : extract_bikashnews_content cd (m * 2) ≠ "" ∧
            (extract_bikashnews_content cd (m * 2)).length > 100
        · rw [if_pos h2]; dsimp only; exact pySliceTo_length_le _ _
        · rw [if_neg h2]; dsimp only; exact pySliceTo_length_le _ _
      · rw [if_neg ht]; dsimp only; exact pySliceTo_length_le _ _

set_option maxRecDepth 100000 in
/-- **C3 (counterexample).**  On a merolagani page whose cleaned main
article has 250 characters and with `max_body_length = 10`, the strategy
slices to 10 characters with no `"..."` suffix although the
pre-truncation candidate exceeded the bound — the "suffix present iff
truncated" half of the claim fails (the Source-B/C strategies never append
an ellipsis). -/
theorem claim_C3_counterexample :
    10 < (clean_merolagani_content (extract_merolagani_main_article soupC3)).length ∧
    extract_merolagani_content_full soupC3 10 = String.mk (List.replicate 10 'क') ∧
    trailsWith "...".data (extract_merolagani_content_full soupC3 10).data = false := by
  refine ⟨by decide, by decide, by decide⟩

/-- **C3 (amended).**  Truncation differs by strategy: Source-B
(bikashnews) and Source-C (merolagani) slice to `max_body_length` with no
ellipsis marker (so `len ≤ max_body_length` always, but no `"..."` witness
of truncation); the Generic strategy, on its candidate path, returns the
cleaned winning candidate truncated to `max_body_length` with `"..."`
appended exactly when the cleaned candidate exceeds the bound (so
`len ≤ max_body_length + 3`); the Generic title fallback returns the page
title text untruncated.  Only the Generic strategy applies
`clean_article_content` (the dateline-stripping cleanup). -/
theorem claim_C3_amended_truncation (soup : SoupModel) (m : Nat) :
    (extract_merolagani_content_full soup m).length ≤ m ∧
    (extract_bikashnews_content_full soup m).length ≤ m ∧
    (genericBodyCandidates soup ≠ [] →
      extract_generic_content soup m =
        (if (clean_article_content (selectBest (genericBodyCandidates soup)).text).length > m
         then pySliceTo (clean_article_content (selectBest (genericBodyCandidates soup)).text) m
              ++ "..."
         else clean_article_content (selectBest (genericBodyCandidates soup)).text) ∧
      (extract_generic_content soup m).length ≤ m + 3) ∧
    (genericBodyCandidates soup = [] →
      ∀ t, soup.findTitleTag = some t → t.truthy = true →
        has_substantial_nepali_content t.cleanText = true →
        extract_generic_content soup m = t.cleanText) := by
  refine ⟨ml_length_le soup m, bk_length_le soup m, ?_, ?_⟩
  · intro h
    have heq : extract_generic_content soup m =
        (if (clean_article_content (selectBest (genericBodyCandidates soup)).text).length > m
         then pySliceTo (clean_article_content (selectBest (genericBodyCandidates soup)).text) m
              ++ "..."
         else clean_article_content (selectBest (genericBodyCandidates soup)).text) := by
      unfold extract_generic_content
      dsimp only
      rw [if_pos h]
    refine ⟨heq, ?_⟩
    rw [heq]
    by_cases hlen :
        (clean_article_content (selectBest (genericBodyCandidates soup)).text).length > m
    · rw [if_pos hlen]
      rw [String.length_append]
      have hb := pySliceTo_length_le
        (clean_article_content (selectBest (genericBodyCandidates soup)).text) m
      have h3 : ("..." : String).length = 3 := by decide
      omega
    · rw [if_neg hlen]
      omega
  · intro h t ht htr hsub
    unfold extract_generic_content
    dsimp only
    rw [if_neg (by rw [h]; exact fun hcon => hcon rfl), ht]
    dsimp only
    rw [if_pos htr, if_pos hsub]

set_option maxRecDepth 100000 in
theorem claim_C3_amended_truncation_witness :
    extract_generic_content soupGen 50 =
      pySliceTo (clean_article_content (selectBest (genericBodyCandidates soupGen)).text) 50
        ++ "..." ∧
    (extract_generic_content soupGen 50).length ≤ 53 ∧
    extract_generic_content soupTitleNp 10 = npTitle ∧
    13 < npTitle.length := by
  have h1 := (claim_C3_amended_truncation soupGen 50).2.2.1 (by decide)
  have h2 := (claim_C3_amended_truncation soupTitleNp 10).2.2.2 (by decide) titleTagNp rfl rfl
    (by decide)
  refine ⟨?_, h1.2, h2, by decide⟩
  rw [h1.1, if_pos (by decide)]

set_option maxRecDepth 100000 in
/-- **C6 (counterexample).**  The merolagani strategy never consults
`NAV_PATTERNS`: a fragment containing the known navigation phrase
`"Home News Latest News Stock Market"` is selected as the final body
text (the result is navigation content by the code's own detector and is
a substantial, non-empty selection). -/
theorem claim_C6_counterexample :
    is_navigation_content (extract_merolagani_content_full soupC6 5000) = true ∧
    200 < (extract_merolagani_content_full soupC6 5000).length := by
  refine ⟨by decide, by decide⟩

/-- **C6 (amended).**  The navigation filter is applied fragment-wise and
only by the Generic strategy: every fragment admitted at its four tiers
(structural-selector candidates, good paragraphs, Nepali block elements,
raw text nodes) satisfies `is_navigation_content = false`; the
concatenations of tier-2/4 fragments and the title fallback are not
re-checked, and the Source-B/C strategies do not consult `NAV_PATTERNS`
in their main-article paths at all. -/
theorem claim_C6_amended_navigation (soup : SoupModel) :
    (∀ c ∈ tier1Candidates soup, is_navigation_content c.text = false) ∧
    (∀ p ∈ goodParagraphs soup, is_navigation_content p = false) ∧
    (∀ c ∈ tier3Candidates soup, is_navigation_content c.text = false) ∧
    (∀ p ∈ nepaliTexts soup, is_navigation_content p = false) := by
  refine ⟨?_, ?_, ?_, ?_⟩
  · intro c hc
    unfold tier1Candidates at hc
    rw [List.mem_flatMap] at hc
    obtain ⟨sel, -, hc⟩ := hc
    rw [List.mem_filterMap] at hc
    obtain ⟨e, -, hc⟩ := hc
    dsimp only at hc
    split at hc
    · split at hc
      · rename_i hcond
        obtain rfl := Option.some.inj hc
        exact hcond.2.2
      · exact absurd hc (by simp)
    · exact absurd hc (by simp)
  · intro p hp
    unfold goodParagraphs at hp
    rw [List.mem_filterMap] at hp
    obtain ⟨e, -, hp⟩ := hp
    dsimp only at hp
    split at hp
    · rename_i hcond
      obtain rfl := Option.some.inj hp
      exact hcond.2.2
    · exact absurd hp (by simp)
  · intro c hc
    unfold tier3Candidates at hc
    rw [List.mem_filterMap] at hc
    obtain ⟨e, -, hc⟩ := hc
    dsimp only at hc
    split at hc
    · rename_i hcond
      obtain rfl := Option.some.inj hc
      exact hcond.2.2
    · exact absurd hc (by simp)
  · intro p hp
    unfold nepaliTexts at hp
    rw [List.mem_filterMap] at hp
    obtain ⟨node, -, hp⟩ := hp
    dsimp only at hp
    split at hp
    · rename_i hcond
      split at hp
      · split at hp
        · obtain rfl := Option.some.inj hp
          exact hcond.2.2
        · exact absurd hp (by simp)
      · exact absurd hp (by simp)
    · exact absurd hp (by simp)

set_option maxRecDepth 100000 in
theorem claim_C6_amended_navigation_witness :
    (⟨genCexText, genCexText.length, ".news-detail-content"⟩ : GCand) ∈
      tier1Candidates soupGen ∧
    is_navigation_content genCexText = false := by
  have hmem : (⟨genCexText, genCexText.length, ".news-detail-content"⟩ : GCand) ∈
      tier1Candidates soupGen := by decide
  have h := (claim_C6_amended_navigation soupGen).1 _ hmem
  exact ⟨hmem, h⟩

end ContentExtractor
